import Mathlib

/-!
Verification of the osm2lanes tags-to-lanes inference engine.

This file shallowly embeds the two generations of the engine found in the
repository:

* the monolithic pipeline of `src/rust/osm2lanes/src/transform.rs`
  (`get_lane_specs_ltr_with_warnings` and its mode passes), and
* the newer modular pipeline of `src/rust/osm2lanes/src/transform/tags_to_lanes/`
  (`bus.rs` and `mod.rs`).

Rust `usize` subtraction and slice indexing can panic; those spots are
modelled with `Option`, where `none` stands for a panic.  Fallible code
returns `Except`.  Modules of the repository that are not under `src/`
(`road.rs`, `error.rs`, the tag store, the locale) are modelled from the
spec where needed; each such definition carries a doc comment saying so.
-/

namespace Osm2lanes

/-- The tag store: an association list from OSM keys to values, the first
binding for a key wins (the Rust `Tags` is a map, so keys are unique; an
association list with lookup specializes to it). -/
abbrev Tags := List (String × String)

/-- Modelled from the spec (tag store, §4.1): `get(key) → string?`, exact
key lookup. -/
def Tags.get (t : Tags) (k : String) : Option String :=
  match t with
  | [] => none
  | kv :: rest => if kv.1 = k then some kv.2 else Tags.get rest k

/-- Modelled from the spec (tag store, §4.1): `is(key, value) → bool`. -/
def Tags.is (t : Tags) (k v : String) : Bool :=
  decide (Tags.get t k = some v)

/-- Modelled from the spec (tag store, §4.1): `is_any(key, values) → bool`. -/
def Tags.isAny (t : Tags) (k : String) (vs : List String) : Bool :=
  match Tags.get t k with
  | some v => vs.contains v
  | none => false

/-- Modelled from the spec (tag store, §4.1): `subset(keys)` filters the
store to the given keys, for attaching to diagnostics. -/
def Tags.subset (t : Tags) (ks : List String) : Tags :=
  t.filter (fun kv => ks.contains kv.1)

/-- String emptiness (several core `String` functions recurse by fuel or
well-founded measures, which the kernel cannot evaluate, so the string
operations here are written over `String.data` with plain structural
recursion). -/
def strIsEmpty (s : String) : Bool :=
  decide (s = "")

/-- Rust `str::starts_with`: `strStartsWith s p` is true when `p` is a
prefix of `s`. -/
def strStartsWith (s p : String) : Bool :=
  p.data.isPrefixOf s.data

/-- Modelled from the spec (tag store, §4.1): `tree().get(prefix).is_some()`,
i.e. "does any key at or under this prefix exist?". -/
def Tags.treeHas (t : Tags) (p : String) : Bool :=
  t.any (fun kv => kv.1 = p || strStartsWith kv.1 (p ++ ":"))

/-- Accumulate decimal digits; any non-digit character fails the parse. -/
def parseDigits : List Char → Nat → Option Nat
  | [], acc => some acc
  | c :: rest, acc =>
    if c.isDigit then parseDigits rest (acc * 10 + (c.toNat - 48)) else none

/-- Rust `str::parse::<usize>()`: optional leading `+`, then at least one
decimal digit and nothing else, bounded by `usize::MAX` (64-bit). -/
def parseUsize (s : String) : Option Nat :=
  let cs :=
    match s.data with
    | '+' :: rest => rest
    | cs => cs
  match cs with
  | [] => none
  | _ =>
    match parseDigits cs 0 with
    | some n => if n < 2 ^ 64 then some n else none
    | none => none

/-- Rust `str::split('|')` collected to a vector: split on pipes, keeping
empty fragments. -/
def splitPipeAux : List Char → List Char → List String
  | [], acc => [String.mk acc.reverse]
  | c :: rest, acc =>
    if c = '|' then String.mk acc.reverse :: splitPipeAux rest []
    else splitPipeAux rest (c :: acc)

/-- Split a spec string on `|` (`spec.split('|').collect()`). -/
def splitPipe (s : String) : List String :=
  splitPipeAux s.data []

/-- Rust `usize` subtraction: panics (here `none`) on underflow. -/
def checkedSub (a b : Nat) : Option Nat :=
  if b ≤ a then some (a - b) else none

/-- Driving side of the locale / config. -/
inductive DrivingSide
  | Right
  | Left
deriving DecidableEq

/-- `DrivingSide::opposite` as used by the mode passes. -/
def DrivingSide.opposite : DrivingSide → DrivingSide
  | .Right => .Left
  | .Left => .Right

/-- `DrivingSide::tag()` / `WaySide::as_str()`: the `"left"` / `"right"`
key fragment. -/
def DrivingSide.tagStr : DrivingSide → String
  | .Right => "right"
  | .Left => "left"

/-- Lane direction of the old (`transform.rs`) data model. -/
inductive Direction
  | Forward
  | Backward
  | Both
  | None
deriving DecidableEq

/-- Buffer types between lanes. -/
inductive BufferType
  | FlexPosts
  | Curb
  | Planters
  | JerseyBarrier
  | Stripes
deriving DecidableEq

/-- Lane types of the old (`transform.rs`) data model, as used by
`transform.rs` (the defining `lib.rs` is not under `src/`; constructors are
exactly those referenced by `transform.rs`). -/
inductive LaneType
  | Driving
  | Biking
  | Bus
  | Parking
  | Sidewalk
  | Shoulder
  | SharedLeftTurn
  | Construction
  | Buffer (b : BufferType)
deriving DecidableEq

/-- A lane in the old data model: `LaneSpec { lane_type, direction }`. -/
structure LaneSpec where
  lane_type : LaneType
  direction : Direction
deriving DecidableEq

/-- `LaneSpec::forward`. -/
def LaneSpec.forward (lt : LaneType) : LaneSpec := ⟨lt, .Forward⟩

/-- `LaneSpec::backward`. -/
def LaneSpec.backward (lt : LaneType) : LaneSpec := ⟨lt, .Backward⟩

/-- `LaneSpec::both`. -/
def LaneSpec.both (lt : LaneType) : LaneSpec := ⟨lt, .Both⟩

/-- Configuration of the old pipeline: driving side and the
`inferred_sidewalks` flag, the two fields `transform.rs` reads. -/
structure Config where
  driving_side : DrivingSide
  inferred_sidewalks : Bool
deriving DecidableEq

/-- A warning: description plus the subset of tags that triggered it. -/
structure LaneSpecWarning where
  description : String
  tags : Tags
deriving DecidableEq

/-- `LaneSpecWarnings`: an ordered list of warnings. -/
abbrev LaneSpecWarnings := List LaneSpecWarning

/-- `LaneSpecError`: a bare error message. -/
structure LaneSpecError where
  msg : String
deriving DecidableEq

/-- `Lanes`: the old pipeline's successful result. -/
structure Lanes where
  lanes : List LaneSpec
  warnings : LaneSpecWarnings
deriving DecidableEq

/-- Replace the element at an index, leaving the list unchanged when the
index is out of range (the Rust call sites stay in bounds). -/
def modifyIdx (l : List α) (i : Nat) (f : α → α) : List α :=
  match l, i with
  | [], _ => []
  | a :: rest, 0 => f a :: rest
  | a :: rest, n + 1 => a :: modifyIdx rest n f

/-- Insert an element before position `i` (Rust `Vec::insert`; call sites
stay in bounds). -/
def insertIdx (l : List α) (i : Nat) (a : α) : List α :=
  match l, i with
  | l, 0 => a :: l
  | [], _ + 1 => [a]
  | x :: rest, n + 1 => x :: insertIdx rest n a

/-- Apply a function to the last element of a list (Rust `last_mut`). -/
def modifyLast (f : α → α) : List α → List α
  | [] => []
  | [a] => [f a]
  | a :: b :: rest => a :: modifyLast f (b :: rest)

/-! ## The old pipeline: `src/rust/osm2lanes/src/transform.rs` -/

/-- `assemble_ltr` (transform.rs:606): flatten the two sides to
left-to-right.  Rust reverses one side in place and extends it with the
other, which is exactly `List.reverseAux`. -/
def assemble_ltr (fwd_side back_side : List LaneSpec) (driving_side : DrivingSide) :
    List LaneSpec :=
  match driving_side with
  | .Right => List.reverseAux back_side fwd_side
  | .Left => List.reverseAux fwd_side back_side

/-- `non_motorized` (transform.rs:124): the fast path for non-motorized
highway types; `none` means the way is motorized and the main pipeline
continues. -/
def non_motorized (tags : Tags) (cfg : Config) : Option (Except LaneSpecError Lanes) :=
  if !(Tags.isAny tags "highway"
      ["cycleway", "footway", "path", "pedestrian", "steps", "track"]) then
    none
  else if Tags.is tags "highway" "steps" then
    some (.ok ⟨[LaneSpec.both .Sidewalk],
      [⟨"highway is steps, but lane is only a sidewalk", Tags.subset tags ["highway"]⟩]⟩)
  else if Tags.is tags "bicycle" "no" ||
      (Tags.is tags "highway" "footway" &&
        !(Tags.isAny tags "bicycle" ["designated", "yes"])) then
    some (.ok ⟨[LaneSpec.both .Sidewalk], []⟩)
  else
    let forward_side := [LaneSpec.forward .Biking]
    let backward_side :=
      if Tags.is tags "oneway" "yes" then ([] : List LaneSpec)
      else [LaneSpec.backward .Biking]
    let forward_side :=
      if !(Tags.is tags "foot" "no") then forward_side ++ [LaneSpec.both .Shoulder]
      else forward_side
    let backward_side :=
      if !(Tags.is tags "foot" "no") && !backward_side.isEmpty then
        backward_side ++ [LaneSpec.both .Shoulder]
      else backward_side
    some (.ok ⟨assemble_ltr forward_side backward_side cfg.driving_side, []⟩)

/-- The `lanes:both_ways` count (transform.rs:186): parsed value or 0. -/
def both_ways_count (tags : Tags) : Nat :=
  match (Tags.get tags "lanes:both_ways").bind parseUsize with
  | some n => n
  | none => 0

/-- The forward driving-lane count (transform.rs:194): `lanes:forward`, or
derived from `lanes` (with a possibly-underflowing subtraction), or 1. -/
def fwd_count (tags : Tags) (oneway : Bool) : Option Nat :=
  match (Tags.get tags "lanes:forward").bind parseUsize with
  | some n => some n
  | none =>
    match (Tags.get tags "lanes").bind parseUsize with
    | some n =>
      let half := if oneway then n else (n + 1) / 2
      checkedSub half (both_ways_count tags)
    | none => some 1

/-- The backward driving-lane count (transform.rs:210): `lanes:backward`,
or derived from `lanes` minus the forward count (two possibly-underflowing
subtractions), or 0/1 by onewayness. -/
def back_count (tags : Tags) (oneway : Bool) (num_driving_fwd : Nat) : Option Nat :=
  match (Tags.get tags "lanes:backward").bind parseUsize with
  | some n => some n
  | none =>
    match (Tags.get tags "lanes").bind parseUsize with
    | some n =>
      match checkedSub n num_driving_fwd with
      | none => none
      | some base =>
        let half := if oneway then base else max base 1
        checkedSub half (both_ways_count tags)
    | none => some (if oneway then 0 else 1)

/-- `driving_lane_directions` (transform.rs:185): forward and backward
driving-lane counts; `none` models a `usize` underflow panic. -/
def driving_lane_directions (tags : Tags) (_cfg : Config) (oneway : Bool) :
    Option (Nat × Nat) :=
  match fwd_count tags oneway with
  | none => none
  | some num_driving_fwd =>
    match back_count tags oneway num_driving_fwd with
    | none => none
    | some num_driving_back => some (num_driving_fwd, num_driving_back)

/-- The forward bus spec string of the old `bus` pass (transform.rs:239):
`bus:lanes:forward`, else `psv:lanes:forward`, else on oneways `bus:lanes`
or `psv:lanes`, else empty. -/
def fwd_bus_spec (tags : Tags) (oneway : Bool) : String :=
  match Tags.get tags "bus:lanes:forward" with
  | some s => s
  | none =>
    match Tags.get tags "psv:lanes:forward" with
    | some s => s
    | none =>
      if oneway then
        match Tags.get tags "bus:lanes" with
        | some s => s
        | none =>
          match Tags.get tags "psv:lanes" with
          | some s => s
          | none => ""
      else ""

/-- Mark the lane at `idx + offset` as a bus lane when the part at `idx`
says `designated` (the loop body of the old `bus` pass). -/
def bus_mark (offset : Nat) (side : List LaneSpec) (p : Nat × String) : List LaneSpec :=
  if p.2 = "designated" then
    modifyIdx side (p.1 + offset) (fun l => ⟨.Bus, l.direction⟩)
  else side

/-- The forward half of the old `bus` pass (transform.rs:254): reads
`forward_side[0]` whenever the spec is nonempty, which panics (`none`) on
an empty forward side; length mismatches are ignored. -/
def bus_apply_fwd (spec : String) (forward_side : List LaneSpec) :
    Option (List LaneSpec) :=
  if strIsEmpty spec then some forward_side
  else
    match forward_side with
    | [] => none
    | first :: _ =>
      let parts := splitPipe spec
      let offset := if first.lane_type = .SharedLeftTurn then 1 else 0
      if parts.length = forward_side.length - offset then
        some (parts.enum.foldl (bus_mark offset) forward_side)
      else
        some forward_side

/-- The backward half of the old `bus` pass (transform.rs:269): applied
when a backward spec exists; length mismatches are ignored. -/
def bus_apply_back (spec : String) (backward_side : List LaneSpec) : List LaneSpec :=
  let parts := splitPipe spec
  if parts.length = backward_side.length then
    parts.enum.foldl (bus_mark 0) backward_side
  else
    backward_side

/-- `bus` (transform.rs:232), the old pipeline's bus pass; `none` models
the `forward_side[0]` panic. -/
def bus (tags : Tags) (_cfg : Config) (oneway : Bool)
    (forward_side backward_side : List LaneSpec) :
    Option (List LaneSpec × List LaneSpec) :=
  match bus_apply_fwd (fwd_bus_spec tags oneway) forward_side with
  | none => none
  | some f =>
    let b :=
      match Tags.get tags "bus:lanes:backward" with
      | some s => bus_apply_back s backward_side
      | none =>
        match Tags.get tags "psv:lanes:backward" with
        | some s => bus_apply_back s backward_side
        | none => backward_side
    some (f, b)

/-- `Tags::is_cycleway` (transform.rs:293): `cycleway[:side] ∈ {lane, track}`. -/
def is_cycleway (tags : Tags) (side : Option String) : Bool :=
  match side with
  | some s => Tags.isAny tags ("cycleway:" ++ s) ["lane", "track"]
  | none => Tags.isAny tags "cycleway" ["lane", "track"]

/-- The `cycleway=opposite_lane` step of `bicycle` (transform.rs:327-333):
warn deprecated and push a backward bicycle lane. -/
def bicycle_opposite_warn (tags : Tags)
    (backward_side : List LaneSpec) (warnings : LaneSpecWarnings) :
    List LaneSpec × LaneSpecWarnings :=
  if Tags.is tags "cycleway" "opposite_lane" then
    (backward_side ++ [LaneSpec.backward .Biking],
     warnings ++ [⟨"cycleway=opposite_lane deprecated", Tags.subset tags ["cycleway"]⟩])
  else (backward_side, warnings)

/-- The `cycleway:FORWARD=*` step of `bicycle` (transform.rs:335-343). -/
def bicycle_forward_lane (tags : Tags) (cfg : Config)
    (forward_side : List LaneSpec) : List LaneSpec :=
  if is_cycleway tags (some cfg.driving_side.tagStr) then
    if Tags.is tags ("cycleway:" ++ cfg.driving_side.tagStr ++ ":oneway") "no" ||
        Tags.is tags "oneway:bicycle" "no" then
      forward_side ++ [LaneSpec.both .Biking]
    else forward_side ++ [LaneSpec.forward .Biking]
  else forward_side

/-- The `cycleway:FORWARD=opposite_lane` step of `bicycle`
(transform.rs:345-354). -/
def bicycle_forward_opposite (tags : Tags) (cfg : Config)
    (forward_side : List LaneSpec) (warnings : LaneSpecWarnings) :
    List LaneSpec × LaneSpecWarnings :=
  if Tags.isAny tags ("cycleway:" ++ cfg.driving_side.tagStr)
      ["opposite_lane", "opposite_track"] then
    (forward_side ++ [LaneSpec.backward .Biking],
     warnings ++ [⟨"cycleway:FORWARD=opposite_lane deprecated", Tags.subset tags ["cycleway"]⟩])
  else (forward_side, warnings)

/-- The `cycleway:BACKWARD=*` step of `bicycle` (transform.rs:356-370). -/
def bicycle_backward_lane (tags : Tags) (cfg : Config) (oneway : Bool)
    (forward_side backward_side : List LaneSpec) :
    List LaneSpec × List LaneSpec :=
  if is_cycleway tags (some cfg.driving_side.opposite.tagStr) then
    if Tags.is tags ("cycleway:" ++ cfg.driving_side.opposite.tagStr ++ ":oneway") "no" ||
        Tags.is tags "oneway:bicycle" "no" then
      (forward_side, backward_side ++ [LaneSpec.both .Biking])
    else if oneway then
      (LaneSpec.forward .Biking :: forward_side, backward_side)
    else
      (forward_side, backward_side ++ [LaneSpec.backward .Biking])
  else (forward_side, backward_side)

/-- The lane-pushing phase of `bicycle` (transform.rs:302-380), before the
left-hand-traffic guard and the separation buffers. -/
def bicycle_push (tags : Tags) (cfg : Config) (oneway : Bool)
    (forward_side backward_side : List LaneSpec) (warnings : LaneSpecWarnings) :
    Except LaneSpecError (List LaneSpec × List LaneSpec × LaneSpecWarnings) :=
  if is_cycleway tags none then
    if is_cycleway tags (some "both") || is_cycleway tags (some "right") ||
        is_cycleway tags (some "left") then
      .error ⟨"cycleway=* not supported with any cycleway:* values"⟩
    else if oneway then
      if !backward_side.isEmpty then
        .ok (forward_side ++ [LaneSpec.forward .Biking], backward_side, warnings ++
          [⟨"oneway has backwards lanes when adding cycleways",
            Tags.subset tags ["oneway", "cycleway"]⟩])
      else
        .ok (forward_side ++ [LaneSpec.forward .Biking], backward_side, warnings)
    else
      .ok (forward_side ++ [LaneSpec.forward .Biking],
        backward_side ++ [LaneSpec.backward .Biking], warnings)
  else if is_cycleway tags (some "both") then
    .ok (forward_side ++ [LaneSpec.both .Biking], backward_side, warnings)
  else
    let bw1 := bicycle_opposite_warn tags backward_side warnings
    let f1 := bicycle_forward_lane tags cfg forward_side
    let fw2 := bicycle_forward_opposite tags cfg f1 bw1.2
    let fb3 := bicycle_backward_lane tags cfg oneway fw2.1 bw1.1
    if Tags.isAny tags ("cycleway:" ++ cfg.driving_side.opposite.tagStr)
        ["opposite_lane", "opposite_track"] then
      .error ⟨"cycleway:BACKWARD=opposite_lane unsupported"⟩
    else
      .ok (fb3.1, fb3.2, fw2.2)

/-- The left-hand-traffic guard of `bicycle` (transform.rs:387). -/
def bicycle_guard (cfg : Config) (f b : List LaneSpec) : Bool :=
  decide (cfg.driving_side = .Left) &&
    (f ++ b).any (fun lane => decide (lane.lane_type = .Biking))

/-- `osm_separation_type` (transform.rs:627). -/
def osm_separation_type (x : String) : Option BufferType :=
  if x = "bollard" ∨ x = "vertical_panel" then some .FlexPosts
  else if x = "kerb" ∨ x = "separation_kerb" then some .Curb
  else if x = "grass_verge" ∨ x = "planter" ∨ x = "tree_row" then some .Planters
  else if x = "guard_rail" ∨ x = "jersey_barrier" ∨ x = "railing" then some .JerseyBarrier
  else if x = "parking_lane" then none
  else if x = "barred_area" ∨ x = "dashed_line" ∨ x = "solid_line" then some .Stripes
  else none

/-- The `cycleway:right:separation:left` buffer block of `bicycle`
(transform.rs:397-409): a forward buffer before the first forward bicycle
lane. -/
def bicycle_buffer_right_left (tags : Tags) (f : List LaneSpec) : List LaneSpec :=
  match (Tags.get tags "cycleway:right:separation:left").bind osm_separation_type with
  | some buffer =>
    match f.findIdx? (fun x => decide (x.lane_type = .Biking)) with
    | some idx => insertIdx f idx (LaneSpec.forward (.Buffer buffer))
    | none => f
  | none => f

/-- The `cycleway:left:separation:left` buffer block of `bicycle`
(transform.rs:410-420): a backward buffer before the first backward bicycle
lane. -/
def bicycle_buffer_left_left (tags : Tags) (b : List LaneSpec) : List LaneSpec :=
  match (Tags.get tags "cycleway:left:separation:left").bind osm_separation_type with
  | some buffer =>
    match b.findIdx? (fun x => decide (x.lane_type = .Biking)) with
    | some idx => insertIdx b idx (LaneSpec.backward (.Buffer buffer))
    | none => b
  | none => b

/-- The `cycleway:left:separation:right` buffer block of `bicycle`
(transform.rs:421-432): a forward buffer after the first forward bicycle
lane. -/
def bicycle_buffer_left_right (tags : Tags) (f : List LaneSpec) : List LaneSpec :=
  match (Tags.get tags "cycleway:left:separation:right").bind osm_separation_type with
  | some buffer =>
    match f.findIdx? (fun x => decide (x.lane_type = .Biking)) with
    | some idx => insertIdx f (idx + 1) (LaneSpec.forward (.Buffer buffer))
    | none => f
  | none => f

/-- The separation-buffer phase of `bicycle` (transform.rs:397-432): the
two forward blocks run in source order, around the backward block. -/
def bicycle_buffers (tags : Tags) (f b : List LaneSpec) :
    List LaneSpec × List LaneSpec :=
  (bicycle_buffer_left_right tags (bicycle_buffer_right_left tags f),
   bicycle_buffer_left_left tags b)

/-- `bicycle` (transform.rs:284): push phase, then the LHT guard, then the
separation buffers. -/
def bicycle (tags : Tags) (cfg : Config) (oneway : Bool)
    (forward_side backward_side : List LaneSpec) (warnings : LaneSpecWarnings) :
    Except LaneSpecError (List LaneSpec × List LaneSpec × LaneSpecWarnings) :=
  match bicycle_push tags cfg oneway forward_side backward_side warnings with
  | .error e => .error e
  | .ok (f, b, w) =>
    if bicycle_guard cfg f b then
      .error ⟨"LHT with cycleways not supported"⟩
    else
      let fb := bicycle_buffers tags f b
      .ok (fb.1, fb.2, w)

/-- `parking` (transform.rs:437). -/
def parking (tags : Tags) (_cfg : Config) (_oneway : Bool)
    (forward_side backward_side : List LaneSpec) :
    List LaneSpec × List LaneSpec :=
  let has_parking := ["parallel", "diagonal", "perpendicular"]
  let parking_lane_fwd := Tags.isAny tags "parking:lane:right" has_parking ||
    Tags.isAny tags "parking:lane:both" has_parking
  let parking_lane_back := Tags.isAny tags "parking:lane:left" has_parking ||
    Tags.isAny tags "parking:lane:both" has_parking
  (if parking_lane_fwd then forward_side ++ [LaneSpec.forward .Parking] else forward_side,
   if parking_lane_back then backward_side ++ [LaneSpec.backward .Parking] else backward_side)

/-- The sidewalk phase of `walking` (transform.rs:464-485). -/
def walking_sidewalk (tags : Tags) (cfg : Config)
    (forward_side backward_side : List LaneSpec) :
    List LaneSpec × List LaneSpec :=
  if Tags.is tags "sidewalk" "both" then
    (forward_side ++ [LaneSpec.both .Sidewalk], backward_side ++ [LaneSpec.both .Sidewalk])
  else if Tags.is tags "sidewalk" "separate" && cfg.inferred_sidewalks then
    (forward_side ++ [LaneSpec.forward .Sidewalk],
     if !backward_side.isEmpty then backward_side ++ [LaneSpec.both .Sidewalk]
     else backward_side)
  else if Tags.is tags "sidewalk" "right" then
    if cfg.driving_side = .Right then
      (forward_side ++ [LaneSpec.both .Sidewalk], backward_side)
    else
      (forward_side, backward_side ++ [LaneSpec.both .Sidewalk])
  else if Tags.is tags "sidewalk" "left" then
    if cfg.driving_side = .Right then
      (forward_side, backward_side ++ [LaneSpec.both .Sidewalk])
    else
      (forward_side ++ [LaneSpec.both .Sidewalk], backward_side)
  else
    (forward_side, backward_side)

/-- The shoulder phase of `walking` (transform.rs:487-517). -/
def walking_shoulder (tags : Tags) (cfg : Config) (_oneway : Bool)
    (forward_side backward_side : List LaneSpec) :
    List LaneSpec × List LaneSpec :=
  let need_fwd :=
    match forward_side.getLast? with
    | some spec => decide (spec.lane_type ≠ .Sidewalk)
    | none => true
  let need_back :=
    match backward_side.getLast? with
    | some spec => decide (spec.lane_type ≠ .Sidewalk)
    | none => true
  let suppress := Tags.isAny tags "highway" ["motorway", "motorway_link", "construction"] ||
    Tags.is tags "foot" "no" || Tags.is tags "access" "no" ||
    Tags.is tags "motorroad" "yes"
  let need_fwd := need_fwd && !suppress
  let need_back := need_back && !suppress && !(Tags.is tags "oneway" "yes")
  if cfg.inferred_sidewalks || Tags.is tags "highway" "living_street" then
    (if need_fwd then forward_side ++ [LaneSpec.both .Shoulder] else forward_side,
     if need_back then backward_side ++ [LaneSpec.both .Shoulder] else backward_side)
  else
    (forward_side, backward_side)

/-- `walking` (transform.rs:457): sidewalk placement, then shoulders. -/
def walking (tags : Tags) (cfg : Config) (oneway : Bool)
    (forward_side backward_side : List LaneSpec) :
    List LaneSpec × List LaneSpec :=
  let fb := walking_sidewalk tags cfg forward_side backward_side
  walking_shoulder tags cfg oneway fb.1 fb.2

/-- The oneway determination (transform.rs:529). -/
def oneway_tag (tags : Tags) : Bool :=
  Tags.isAny tags "oneway" ["yes", "reversible"] || Tags.is tags "junction" "roundabout"

/-- The bus branch of the driving-lane type selection (transform.rs:533),
with Rust operator precedence made explicit:
`access=no ∧ (bus=yes ∨ psv=yes)`, or
`motor_vehicle:conditional` starting with `"no"` ∧ `bus=yes`. -/
def bus_condition (tags : Tags) : Bool :=
  (Tags.is tags "access" "no" && (Tags.is tags "bus" "yes" || Tags.is tags "psv" "yes")) ||
  ((match Tags.get tags "motor_vehicle:conditional" with
    | some x => strStartsWith x "no"
    | none => false) && Tags.is tags "bus" "yes")

/-- The driving-lane type selection (transform.rs:533-547). -/
def driving_lane_type (tags : Tags) : LaneType :=
  if bus_condition tags then .Bus
  else if Tags.is tags "access" "no" || Tags.is tags "highway" "construction" then
    .Construction
  else .Driving

/-- The centre-turn-lane condition (transform.rs:558). -/
def centre_turn (tags : Tags) : Bool :=
  Tags.is tags "lanes:both_ways" "1" || Tags.is tags "centre_turn_lane" "yes"

/-- `get_lane_specs_ltr_with_warnings` (transform.rs:521): the old
pipeline's entry point; `none` models a panic in a pass. -/
def get_lane_specs_ltr_with_warnings (tags : Tags) (cfg : Config) :
    Option (Except LaneSpecError Lanes) :=
  match non_motorized tags cfg with
  | some spec => some spec
  | none =>
    let oneway := oneway_tag tags
    match driving_lane_directions tags cfg oneway with
    | none => none
    | some nfb =>
      let driving_lane := driving_lane_type tags
      let fwd_side := List.replicate nfb.1 (LaneSpec.forward driving_lane)
      let back_side := List.replicate nfb.2 (LaneSpec.backward driving_lane)
      let fwd_side :=
        if centre_turn tags then LaneSpec.both .SharedLeftTurn :: fwd_side else fwd_side
      if driving_lane = .Construction then
        some (.ok ⟨assemble_ltr fwd_side back_side cfg.driving_side, []⟩)
      else
        match bus tags cfg oneway fwd_side back_side with
        | none => none
        | some fb =>
          match bicycle tags cfg oneway fb.1 fb.2 [] with
          | .error e => some (.error e)
          | .ok (f3, b3, warnings) =>
            let fb4 :=
              if driving_lane = .Driving then parking tags cfg oneway f3 b3
              else (f3, b3)
            let fb5 := walking tags cfg oneway fb4.1 fb4.2
            some (.ok ⟨assemble_ltr fb5.1 fb5.2 cfg.driving_side, warnings⟩)

/-! ## The new pipeline: `src/rust/osm2lanes/src/transform/tags_to_lanes/` -/

namespace TagsToLanes

/-- `Oneway` (tags_to_lanes/mod.rs:50). -/
inductive Oneway
  | Yes
  | No
deriving DecidableEq

/-- `From<Oneway> for bool` (tags_to_lanes/mod.rs:65). -/
def Oneway.toBool : Oneway → Bool
  | .Yes => true
  | .No => false

/-- `Infer` (tags_to_lanes/mod.rs:80): a value with provenance. -/
inductive Infer (α : Type)
  | None
  | Default (v : α)
  | Calculated (v : α)
  | Direct (v : α)
deriving DecidableEq

/-- `Infer::some` (tags_to_lanes/mod.rs:88). -/
def Infer.some : Infer α → Option α
  | .None => Option.none
  | .Default v => Option.some v
  | .Calculated v => Option.some v
  | .Direct v => Option.some v

/-- Lane direction of the new data model (the defining `lane.rs` of this
crate is not under `src/`; constructors follow the spec's `Direction`). -/
inductive LaneDirection
  | Forward
  | Backward
  | Both
deriving DecidableEq

/-- Lane designation of the new data model (constructors follow
`road/lane.rs` and the spec's `Designated`). -/
inductive LaneDesignated
  | Foot
  | Bicycle
  | Motor
  | Bus
deriving DecidableEq

/-- Modelled from the spec: `LaneBuilder` (§2, §3; `road.rs` is not under
`src/`) is a mutable provenance-aware partial lane; the two fields the
embedded passes touch are its direction and designation. -/
structure LaneBuilder where
  direction : Infer LaneDirection := .None
  designated : Infer LaneDesignated := .None
deriving DecidableEq

/-- Modelled from the spec: `Locale` (§4.2; `locale.rs` is not under
`src/`).  Only `driving_side` is consulted by the embedded passes; the
floating-point default-width table is not modelled. -/
structure Locale where
  driving_side : DrivingSide
deriving DecidableEq

/-- Modelled from the spec: `RoadMsg` (§7; `error.rs` is not under `src/`),
a diagnostic kind with optional description and optional tag subset.
`RoadError` wraps a single `RoadMsg`, so it is identified with it here. -/
inductive RoadMsg
  | Unsupported (description : Option String) (tags : Option Tags)
  | Ambiguous (description : Option String) (tags : Option Tags)
  | Unimplemented (description : Option String) (tags : Option Tags)
deriving DecidableEq

/-- `RoadError` is a wrapper around one `RoadMsg`. -/
abbrev RoadError := RoadMsg

/-- `RoadMsg::unsupported_str` (used at tags_to_lanes/bus.rs:6): an
Unsupported message with a description and no tags. -/
def RoadMsg.unsupported_str (d : String) : RoadMsg :=
  .Unsupported (Option.some d) Option.none

/-- `RoadError::ambiguous_str` (used at tags_to_lanes/bus.rs:96): an
Ambiguous message with a description and no tags. -/
def RoadError.ambiguous_str (d : String) : RoadError :=
  .Ambiguous (Option.some d) Option.none

/-- Modelled from the spec: `TagsToLanesMsg::unimplemented_tag` (`error.rs`
is not under `src/`) builds an Unimplemented message attaching the single
offending `key=value` tag. -/
def unimplemented_tag (k v : String) : RoadMsg :=
  .Unimplemented Option.none (Option.some [(k, v)])

/-- Modelled from the spec: `TagsToLanesMsg::unimplemented` (`error.rs` is
not under `src/`) builds an Unimplemented message with a description and a
tag subset. -/
def unimplemented_msg (d : String) (ts : Tags) : RoadMsg :=
  .Unimplemented (Option.some d) (Option.some ts)

/-- `LaneBuilder::set_bus` (tags_to_lanes/bus.rs:12): directly designate
the lane as a bus lane (the Rust returns `Ok(())` unconditionally). -/
def LaneBuilder.set_bus (l : LaneBuilder) (_locale : Locale) : LaneBuilder :=
  ⟨l.direction, .Direct .Bus⟩

/-- Designate the last lane of a side as a bus lane, failing with the given
unsupported description when the side is empty
(`side.last_mut().ok_or(...)?.set_bus(locale)?` in `busway`). -/
def setBusLast (locale : Locale) (d : String) (side : List LaneBuilder) :
    Except RoadError (List LaneBuilder) :=
  match side with
  | [] => .error (RoadMsg.unsupported_str d)
  | _ => .ok (modifyLast (fun l => l.set_bus locale) side)

/-- The `busway=lane` block of `busway` (tags_to_lanes/bus.rs:68-79). -/
def busway_lane (tags : Tags) (locale : Locale)
    (forward_side backward_side : List LaneBuilder) :
    Except RoadError (List LaneBuilder × List LaneBuilder) :=
  if Tags.is tags "busway" "lane" then
    match setBusLast locale "no forward lanes for busway" forward_side with
    | .error e => .error e
    | .ok f =>
      if !(Tags.is tags "oneway" "yes") && !(Tags.is tags "oneway:bus" "yes") then
        match setBusLast locale "no backward lanes for busway" backward_side with
        | .error e => .error e
        | .ok b => .ok (f, b)
      else .ok (f, backward_side)
  else .ok (forward_side, backward_side)

/-- The `busway=opposite_lane` block of `busway` (tags_to_lanes/bus.rs:80-85). -/
def busway_opposite_lane (tags : Tags) (locale : Locale)
    (forward_side backward_side : List LaneBuilder) :
    Except RoadError (List LaneBuilder × List LaneBuilder) :=
  if Tags.is tags "busway" "opposite_lane" then
    match setBusLast locale "no backward lanes for busway" backward_side with
    | .error e => .error e
    | .ok b => .ok (forward_side, b)
  else .ok (forward_side, backward_side)

/-- The `busway:both=lane` block of `busway` (tags_to_lanes/bus.rs:86-100). -/
def busway_both (tags : Tags) (locale : Locale)
    (forward_side backward_side : List LaneBuilder) :
    Except RoadError (List LaneBuilder × List LaneBuilder) :=
  if Tags.is tags "busway:both" "lane" then
    match setBusLast locale "no forward lanes for busway" forward_side with
    | .error e => .error e
    | .ok f =>
      match setBusLast locale "no backward lanes for busway" backward_side with
      | .error e => .error e
      | .ok b =>
        if Tags.is tags "oneway" "yes" || Tags.is tags "oneway:bus" "yes" then
          .error (RoadError.ambiguous_str "busway:both=lane for oneway roads")
        else .ok (f, b)
  else .ok (forward_side, backward_side)

/-- The `busway:<driving side>=lane` block of `busway`
(tags_to_lanes/bus.rs:101-106). -/
def busway_forward (tags : Tags) (locale : Locale)
    (forward_side backward_side : List LaneBuilder) :
    Except RoadError (List LaneBuilder × List LaneBuilder) :=
  if Tags.is tags ("busway:" ++ locale.driving_side.tagStr) "lane" then
    match setBusLast locale "no forward lanes for busway" forward_side with
    | .error e => .error e
    | .ok f => .ok (f, backward_side)
  else .ok (forward_side, backward_side)

/-- The `busway:<opposite driving side>=lane` block of `busway`
(tags_to_lanes/bus.rs:107-118). -/
def busway_backward (tags : Tags) (locale : Locale)
    (forward_side backward_side : List LaneBuilder) :
    Except RoadError (List LaneBuilder × List LaneBuilder) :=
  if Tags.is tags ("busway:" ++ locale.driving_side.opposite.tagStr) "lane" then
    if Tags.is tags "oneway" "yes" || Tags.is tags "oneway:bus" "yes" then
      match forward_side with
      | [] => .error (RoadMsg.unsupported_str "no forward lanes for busway")
      | first :: rest => .ok ((first.set_bus locale) :: rest, backward_side)
    else
      .error (RoadError.ambiguous_str "busway:BACKWARD=lane for bidirectional roads")
  else .ok (forward_side, backward_side)

/-- `busway` (tags_to_lanes/bus.rs:59): the `busway*` scheme; the five
tag blocks run in sequence, each able to fail. -/
def busway (tags : Tags) (locale : Locale) (_oneway : Oneway)
    (forward_side backward_side : List LaneBuilder) :
    Except RoadError (List LaneBuilder × List LaneBuilder) :=
  (busway_lane tags locale forward_side backward_side).bind fun fb1 =>
    (busway_opposite_lane tags locale fb1.1 fb1.2).bind fun fb2 =>
      (busway_both tags locale fb2.1 fb2.2).bind fun fb3 =>
        (busway_forward tags locale fb3.1 fb3.2).bind fun fb4 =>
          busway_backward tags locale fb4.1 fb4.2

/-- `lanes_bus` (tags_to_lanes/bus.rs:122): the `lanes:bus*`/`lanes:psv*`
scheme only pushes an Unimplemented warning attaching the related keys. -/
def lanes_bus (tags : Tags) (_locale : Locale) (_oneway : Oneway)
    (_forward_side _backward_side : List LaneBuilder) (warnings : List RoadMsg) :
    Except RoadError (List RoadMsg) :=
  .ok (warnings ++ [RoadMsg.Unimplemented Option.none (Option.some (Tags.subset tags
    ["lanes:psv", "lanes:psv:forward", "lanes:psv:backward",
     "lanes:psv:left", "lanes:psv:right",
     "lanes:bus", "lanes:bus:forward", "lanes:bus:backward",
     "lanes:bus:left", "lanes:bus:right"]))])

/-- The forward bus spec string of `bus_lanes` (tags_to_lanes/bus.rs:156),
identical in shape to the old pass. -/
def fwd_bus_spec_new (tags : Tags) (oneway : Oneway) : String :=
  match Tags.get tags "bus:lanes:forward" with
  | some s => s
  | none =>
    match Tags.get tags "psv:lanes:forward" with
    | some s => s
    | none =>
      if oneway.toBool then
        match Tags.get tags "bus:lanes" with
        | some s => s
        | none =>
          match Tags.get tags "psv:lanes" with
          | some s => s
          | none => ""
      else ""

/-- The loop body of `bus_lanes`: set the builder at `idx + offset` to a
bus designation when the part at `idx` says `designated`. -/
def bus_lanes_mark (locale : Locale) (offset : Nat)
    (side : List LaneBuilder) (p : Nat × String) : List LaneBuilder :=
  if p.2 = "designated" then
    modifyIdx side (p.1 + offset) (fun l => l.set_bus locale)
  else side

/-- `bus_lanes` (tags_to_lanes/bus.rs:148): the pipe-separated per-lane
scheme.  `forward_side[0]` is read whenever the forward spec is nonempty,
which panics (`none`) on an empty forward side; length mismatches are
ignored silently. -/
def bus_lanes (tags : Tags) (locale : Locale) (oneway : Oneway)
    (forward_side backward_side : List LaneBuilder) :
    Option (List LaneBuilder × List LaneBuilder) :=
  let spec := fwd_bus_spec_new tags oneway
  let fwdRes : Option (List LaneBuilder) :=
    if strIsEmpty spec then some forward_side
    else
      match forward_side with
      | [] => none
      | first :: _ =>
        let parts := splitPipe spec
        let offset := if first.direction.some = some LaneDirection.Both then 1 else 0
        if parts.length = forward_side.length - offset then
          some (parts.enum.foldl (bus_lanes_mark locale offset) forward_side)
        else
          some forward_side
  match fwdRes with
  | none => none
  | some f =>
    let b :=
      match Tags.get tags "bus:lanes:backward" with
      | some s =>
        let parts := splitPipe s
        if parts.length = backward_side.length then
          parts.enum.foldl (bus_lanes_mark locale 0) backward_side
        else backward_side
      | none =>
        match Tags.get tags "psv:lanes:backward" with
        | some s =>
          let parts := splitPipe s
          if parts.length = backward_side.length then
            parts.enum.foldl (bus_lanes_mark locale 0) backward_side
          else backward_side
        | none => backward_side
    some (f, b)

/-- `bus` (tags_to_lanes/bus.rs:18): scheme selection by presence of the
three key families, with a hard Unsupported error for the remaining
combinations; `none` models the `bus_lanes` panic. -/
def bus (tags : Tags) (locale : Locale) (oneway : Oneway)
    (forward_side backward_side : List LaneBuilder) (warnings : List RoadMsg) :
    Option (Except RoadError (List LaneBuilder × List LaneBuilder × List RoadMsg)) :=
  match Tags.treeHas tags "busway",
      (Tags.treeHas tags "lanes:bus" || Tags.treeHas tags "lanes:psv"),
      (Tags.treeHas tags "bus:lanes" || Tags.treeHas tags "psv:lanes") with
  | false, false, false => some (.ok (forward_side, backward_side, warnings))
  | true, _, false =>
    some (match busway tags locale oneway forward_side backward_side with
      | .ok fb => .ok (fb.1, fb.2, warnings)
      | .error e => .error e)
  | false, true, false =>
    some (match lanes_bus tags locale oneway forward_side backward_side warnings with
      | .ok w => .ok (forward_side, backward_side, w)
      | .error e => .error e)
  | false, false, true =>
    match bus_lanes tags locale oneway forward_side backward_side with
    | none => none
    | some fb => some (.ok (fb.1, fb.2, warnings))
  | _, _, _ =>
    some (.error (RoadMsg.Unsupported
      (Option.some "more than one bus lanes scheme used") Option.none))

/-- `Config` (tags_to_lanes/mod.rs:24). -/
structure Config where
  error_on_warnings : Bool
  include_separators : Bool
deriving DecidableEq

/-- The 43 access-restriction keys checked by `unsupported`
(tags_to_lanes/mod.rs:189). -/
def ACCESS_KEYS : List String :=
  ["access", "dog", "ski", "inline_skates", "horse", "vehicle", "bicycle",
   "electric_bicycle", "carriage", "hand_cart", "quadracycle", "trailer",
   "caravan", "motor_vehicle", "motorcycle", "moped", "mofa", "motorcar",
   "motorhome", "tourist_bus", "coach", "goods", "hgv", "hgv_articulated",
   "bdouble", "agricultural", "golf_cart", "atv", "snowmobile", "psv", "bus",
   "taxi", "minibus", "share_taxi", "hov", "car_sharing", "emergency",
   "hazmat", "disabled", "roadtrain", "hgv_caravan", "lhv", "tank"]

/-- `unsupported` (tags_to_lanes/mod.rs:183): warn about access keys, fail
hard on `oneway=reversible`. -/
def unsupported (tags : Tags) (_locale : Locale) (warnings : List RoadMsg) :
    Except RoadError (List RoadMsg) :=
  let warnings :=
    if ACCESS_KEYS.any (fun k => (Tags.get tags k).isSome) then
      warnings ++ [unimplemented_msg "access" (Tags.subset tags ACCESS_KEYS)]
    else warnings
  if Tags.is tags "oneway" "reversible" then
    .error (unimplemented_tag "oneway" "reversible")
  else
    .ok warnings

/-- `tags_to_lanes` (tags_to_lanes/mod.rs:137): the entry point runs the
`unsupported` precheck first and only then the rest of the pipeline.  The
stages after the precheck (`RoadBuilder::from`, the mode passes, assembly,
the warning gate) live in modules that are not under `src/`, so they are
abstracted into the `rest` parameter: every theorem below holds for an
arbitrary continuation, which is exactly what "aborts before any lane
inference" means. -/
def tags_to_lanes {ρ : Type} (tags : Tags) (locale : Locale) (config : Config)
    (rest : Tags → Locale → Config → List RoadMsg → Except RoadError ρ) :
    Except RoadError ρ :=
  match unsupported tags locale [] with
  | .error e => .error e
  | .ok warnings => rest tags locale config warnings

end TagsToLanes

/-! ## Shared lemmas -/

deriving instance DecidableEq for Except

/-- Unfolding lemma for `Tags.is`. -/
theorem Tags.is_iff_get {t : Tags} {k v : String} :
    Tags.is t k v = true ↔ Tags.get t k = some v := by
  simp [Tags.is]

/-- `Except.bind` on a success. -/
theorem exbind_ok (a : α) (f : α → Except ε β) : (Except.ok a).bind f = f a := rfl

/-- `Except.bind` on an error. -/
theorem exbind_error (e : ε) (f : α → Except ε β) :
    (Except.error e).bind f = .error e := rfl

/-! ## Claim C7: the left-to-right assembler -/

/-- C7: for every pair of lane sequences, `assemble_ltr` returns
`reverse(backward) ++ forward` under right-hand traffic and
`reverse(forward) ++ backward` under left-hand traffic. -/
theorem c7_assemble_ltr (f b : List LaneSpec) :
    assemble_ltr f b .Right = b.reverse ++ f ∧
    assemble_ltr f b .Left = f.reverse ++ b := by
  constructor <;> simp [assemble_ltr, List.reverseAux_eq]

/-! ## Claim C8: `oneway=reversible` aborts the entry point -/

/-- C8: for every tag input containing `oneway=reversible`, `tags_to_lanes`
fails with an Unimplemented error attaching the `oneway=reversible` tag,
whatever the downstream pipeline stages would do. -/
theorem c8_reversible_aborts {ρ : Type} (tags : Tags) (locale : TagsToLanes.Locale)
    (config : TagsToLanes.Config)
    (rest : Tags → TagsToLanes.Locale → TagsToLanes.Config → List TagsToLanes.RoadMsg →
      Except TagsToLanes.RoadError ρ)
    (h : Tags.is tags "oneway" "reversible" = true) :
    TagsToLanes.tags_to_lanes tags locale config rest =
      .error (TagsToLanes.unimplemented_tag "oneway" "reversible") := by
  unfold TagsToLanes.tags_to_lanes TagsToLanes.unsupported
  simp [h]

/-- Witness for C8 at the concrete input `{oneway=reversible}`. -/
theorem c8_witness :
    Tags.is [("oneway", "reversible")] "oneway" "reversible" = true ∧
    TagsToLanes.tags_to_lanes [("oneway", "reversible")] ⟨.Right⟩ ⟨false, true⟩
        (fun _ _ _ _ => (Except.ok () : Except TagsToLanes.RoadError Unit)) =
      .error (TagsToLanes.unimplemented_tag "oneway" "reversible") :=
  ⟨by decide, c8_reversible_aborts _ _ _ _ (by decide)⟩

/-! ## Claim C9: `highway=steps` fast path -/

/-- C9: for every tag input with `highway=steps`, the pipeline returns
exactly one sidewalk lane together with one warning saying the lane is only
a sidewalk. -/
theorem c9_steps_sidewalk (tags : Tags) (cfg : Config)
    (h : Tags.is tags "highway" "steps" = true) :
    get_lane_specs_ltr_with_warnings tags cfg =
      some (.ok ⟨[LaneSpec.both .Sidewalk],
        [⟨"highway is steps, but lane is only a sidewalk",
          Tags.subset tags ["highway"]⟩]⟩) := by
  have hget : Tags.get tags "highway" = some "steps" := Tags.is_iff_get.mp h
  unfold get_lane_specs_ltr_with_warnings non_motorized
  simp [Tags.isAny, hget, h]

/-- Witness for C9 at the concrete input `{highway=steps}`. -/
theorem c9_witness :
    Tags.is [("highway", "steps")] "highway" "steps" = true ∧
    get_lane_specs_ltr_with_warnings [("highway", "steps")] ⟨.Right, false⟩ =
      some (.ok ⟨[LaneSpec.both .Sidewalk],
        [⟨"highway is steps, but lane is only a sidewalk",
          [("highway", "steps")]⟩]⟩) :=
  ⟨by decide, c9_steps_sidewalk [("highway", "steps")] ⟨.Right, false⟩ (by decide)⟩

/-! ## Claim C4: driving-lane type selection -/

/-- C4 counterexample: on `{highway=construction}` the bus conditions do
not apply and `access=no` does not hold, yet the selected driving-lane type
is Construction — refuting "Construction exactly when `access=no` and
`highway=construction` both hold". -/
theorem c4_counterexample :
    driving_lane_type [("highway", "construction")] = LaneType.Construction ∧
    Tags.is [("highway", "construction")] "access" "no" = false ∧
    bus_condition [("highway", "construction")] = false := by decide

/-- C4 amended: the driving-lane type is Bus exactly on the bus condition;
Construction exactly when the bus condition fails and `access=no` OR
`highway=construction` holds (a disjunction, not a conjunction); and
Travel(Motor) otherwise. -/
theorem c4_amended (tags : Tags) :
    (driving_lane_type tags = .Bus ↔ bus_condition tags = true) ∧
    (driving_lane_type tags = .Construction ↔
      bus_condition tags = false ∧
        (Tags.is tags "access" "no" || Tags.is tags "highway" "construction") = true) ∧
    (driving_lane_type tags = .Driving ↔
      bus_condition tags = false ∧
        (Tags.is tags "access" "no" || Tags.is tags "highway" "construction") = false) := by
  unfold driving_lane_type
  cases hb : bus_condition tags <;>
    cases hc : (Tags.is tags "access" "no" || Tags.is tags "highway" "construction") <;>
      simp

/-! ## Claim C3: the driving-lane count computation -/

/-- C3 counterexample: on `{lanes=1, lanes:both_ways=2}` the subtraction
`half - both_ways` underflows, so the count computation (and with it the
whole pipeline) panics rather than emitting a warning and clamping. -/
theorem c3_counterexample :
    driving_lane_directions [("lanes", "1"), ("lanes:both_ways", "2")]
      ⟨.Right, false⟩ false = none ∧
    get_lane_specs_ltr_with_warnings [("lanes", "1"), ("lanes:both_ways", "2")]
      ⟨.Right, false⟩ = none := by decide

/-- C3 amended: the computation is not total.  It panics (returns `none`)
exactly when a `usize` subtraction underflows: for the forward count, when
`lanes:forward` is absent, `lanes` parses to `n`, and `lanes:both_ways`
exceeds `n` (oneway) or `⌈n/2⌉`; for the backward count, when
`lanes:backward` is absent, `lanes` parses to `n`, and either the forward
count exceeds `n` or `lanes:both_ways` exceeds the remaining half.  No
warning is emitted anywhere in the computation and nothing is clamped to 0;
the only clamp is `max(base, 1)` for the backward count of non-oneway
roads. -/
theorem c3_amended (tags : Tags) (cfg : Config) (ow : Bool) :
    (driving_lane_directions tags cfg ow = none ↔
      fwd_count tags ow = none ∨
        ∃ f, fwd_count tags ow = some f ∧ back_count tags ow f = none) ∧
    (fwd_count tags ow = none ↔
      (Tags.get tags "lanes:forward").bind parseUsize = none ∧
        ∃ n, (Tags.get tags "lanes").bind parseUsize = some n ∧
          (if ow then n else (n + 1) / 2) < both_ways_count tags) ∧
    (∀ f, back_count tags ow f = none ↔
      (Tags.get tags "lanes:backward").bind parseUsize = none ∧
        ∃ n, (Tags.get tags "lanes").bind parseUsize = some n ∧
          (n < f ∨ (if ow then n - f else max (n - f) 1) < both_ways_count tags)) := by
  refine ⟨?_, ?_, ?_⟩
  · unfold driving_lane_directions
    cases hf : fwd_count tags ow with
    | none => simp
    | some f =>
      cases hb : back_count tags ow f with
      | none => simp [hb]
      | some nb => simp [hb]
  · unfold fwd_count
    cases h1 : (Tags.get tags "lanes:forward").bind parseUsize with
    | some n => simp
    | none =>
      cases h2 : (Tags.get tags "lanes").bind parseUsize with
      | none => simp
      | some n =>
        simp only [checkedSub]
        split <;> simp
  · intro f
    unfold back_count
    cases h1 : (Tags.get tags "lanes:backward").bind parseUsize with
    | some n => simp
    | none =>
      cases h2 : (Tags.get tags "lanes").bind parseUsize with
      | none => simp
      | some n =>
        by_cases hnf : f ≤ n
        · have hc : checkedSub n f = some (n - f) := by simp [checkedSub, hnf]
          simp only [hc]
          by_cases hbw :
              both_ways_count tags ≤ (if ow then n - f else max (n - f) 1)
          · have hc2 : checkedSub (if ow then n - f else max (n - f) 1)
                (both_ways_count tags) =
                some ((if ow then n - f else max (n - f) 1) - both_ways_count tags) := by
              simp [checkedSub, hbw]
            simp only [hc2]
            simp
            omega
          · have hc2 : checkedSub (if ow then n - f else max (n - f) 1)
                (both_ways_count tags) = none := by
              simp [checkedSub]
              omega
            simp only [hc2]
            simp
            omega
        · have hc : checkedSub n f = none := by
            simp [checkedSub]
            omega
          simp only [hc]
          simp
          omega

/-! ## Claim C10: `bus_lanes` indexes the forward side unconditionally -/

/-- C10: the new `bus_lanes` pass panics (returns `none`) exactly when a
nonempty forward per-lane bus spec is present and the forward side is
empty; in every other case it returns a result, so nonemptiness of the
forward side is exactly its totality precondition. -/
theorem c10_bus_lanes_totality (tags : Tags) (locale : TagsToLanes.Locale)
    (ow : TagsToLanes.Oneway) (f b : List TagsToLanes.LaneBuilder) :
    (TagsToLanes.bus_lanes tags locale ow f b = none ↔
      strIsEmpty (TagsToLanes.fwd_bus_spec_new tags ow) = false ∧ f = []) := by
  unfold TagsToLanes.bus_lanes
  cases hs : strIsEmpty (TagsToLanes.fwd_bus_spec_new tags ow) with
  | true =>
    cases f <;> simp [hs]
  | false =>
    cases f with
    | nil => simp [hs]
    | cons a l =>
      simp only [hs, Bool.false_eq_true, if_false]
      split
      next heq => split at heq <;> (try split at heq) <;> simp_all
      next val heq => simp

/-! ## Claim C1: bus scheme mixing -/

/-- `setBusLast` either fails with its unsupported message (empty side) or
designates the last lane. -/
theorem setBusLast_cases (locale : TagsToLanes.Locale) (d : String)
    (side : List TagsToLanes.LaneBuilder) :
    TagsToLanes.setBusLast locale d side = .error (TagsToLanes.RoadMsg.unsupported_str d) ∨
    TagsToLanes.setBusLast locale d side =
      .ok (modifyLast (fun l => l.set_bus locale) side) := by
  cases side <;> simp [TagsToLanes.setBusLast]

/-- Errors of the `busway=lane` block. -/
theorem busway_lane_error (tags : Tags) (locale : TagsToLanes.Locale)
    (f b : List TagsToLanes.LaneBuilder) (e : TagsToLanes.RoadError)
    (h : TagsToLanes.busway_lane tags locale f b = .error e) :
    e = TagsToLanes.RoadMsg.unsupported_str "no forward lanes for busway" ∨
    e = TagsToLanes.RoadMsg.unsupported_str "no backward lanes for busway" := by
  unfold TagsToLanes.busway_lane at h
  rcases setBusLast_cases locale "no forward lanes for busway" f with hf | hf <;>
    rcases setBusLast_cases locale "no backward lanes for busway" b with hb | hb <;>
      simp only [hf, hb] at h <;>
        (repeat' split at h) <;> simp_all

/-- Errors of the `busway=opposite_lane` block. -/
theorem busway_opposite_lane_error (tags : Tags) (locale : TagsToLanes.Locale)
    (f b : List TagsToLanes.LaneBuilder) (e : TagsToLanes.RoadError)
    (h : TagsToLanes.busway_opposite_lane tags locale f b = .error e) :
    e = TagsToLanes.RoadMsg.unsupported_str "no backward lanes for busway" := by
  unfold TagsToLanes.busway_opposite_lane at h
  rcases setBusLast_cases locale "no backward lanes for busway" b with hb | hb <;>
    simp only [hb] at h <;>
      (repeat' split at h) <;> simp_all

/-- Errors of the `busway:both=lane` block. -/
theorem busway_both_error (tags : Tags) (locale : TagsToLanes.Locale)
    (f b : List TagsToLanes.LaneBuilder) (e : TagsToLanes.RoadError)
    (h : TagsToLanes.busway_both tags locale f b = .error e) :
    e = TagsToLanes.RoadMsg.unsupported_str "no forward lanes for busway" ∨
    e = TagsToLanes.RoadMsg.unsupported_str "no backward lanes for busway" ∨
    e = TagsToLanes.RoadError.ambiguous_str "busway:both=lane for oneway roads" := by
  unfold TagsToLanes.busway_both at h
  rcases setBusLast_cases locale "no forward lanes for busway" f with hf | hf <;>
    rcases setBusLast_cases locale "no backward lanes for busway" b with hb | hb <;>
      simp only [hf, hb] at h <;>
        (repeat' split at h) <;> simp_all

/-- Errors of the `busway:<driving side>=lane` block. -/
theorem busway_forward_error (tags : Tags) (locale : TagsToLanes.Locale)
    (f b : List TagsToLanes.LaneBuilder) (e : TagsToLanes.RoadError)
    (h : TagsToLanes.busway_forward tags locale f b = .error e) :
    e = TagsToLanes.RoadMsg.unsupported_str "no forward lanes for busway" := by
  unfold TagsToLanes.busway_forward at h
  rcases setBusLast_cases locale "no forward lanes for busway" f with hf | hf <;>
    simp only [hf] at h <;>
      (repeat' split at h) <;> simp_all

/-- Errors of the `busway:<opposite driving side>=lane` block. -/
theorem busway_backward_error (tags : Tags) (locale : TagsToLanes.Locale)
    (f b : List TagsToLanes.LaneBuilder) (e : TagsToLanes.RoadError)
    (h : TagsToLanes.busway_backward tags locale f b = .error e) :
    e = TagsToLanes.RoadMsg.unsupported_str "no forward lanes for busway" ∨
    e = TagsToLanes.RoadError.ambiguous_str
      "busway:BACKWARD=lane for bidirectional roads" := by
  unfold TagsToLanes.busway_backward at h
  (repeat' split at h) <;> simp_all

/-- The `busway` scheme can fail, but never with the scheme-mixing error
message; its own errors are the missing-lane and ambiguity messages. -/
theorem busway_error_ne_scheme_mix (tags : Tags) (locale : TagsToLanes.Locale)
    (ow : TagsToLanes.Oneway) (f b : List TagsToLanes.LaneBuilder) :
    TagsToLanes.busway tags locale ow f b ≠
      Except.error (TagsToLanes.RoadMsg.Unsupported
        (some "more than one bus lanes scheme used") none) := by
  intro h
  unfold TagsToLanes.busway at h
  cases h1 : TagsToLanes.busway_lane tags locale f b with
  | error e =>
    rw [h1, exbind_error] at h
    simp only [Except.error.injEq] at h
    rcases busway_lane_error _ _ _ _ _ h1 with he | he <;>
      simp [he, TagsToLanes.RoadMsg.unsupported_str] at h
  | ok fb1 =>
    rw [h1, exbind_ok] at h
    cases h2 : TagsToLanes.busway_opposite_lane tags locale fb1.1 fb1.2 with
    | error e =>
      rw [h2, exbind_error] at h
      simp only [Except.error.injEq] at h
      have he := busway_opposite_lane_error _ _ _ _ _ h2
      simp [he, TagsToLanes.RoadMsg.unsupported_str] at h
    | ok fb2 =>
      rw [h2, exbind_ok] at h
      cases h3 : TagsToLanes.busway_both tags locale fb2.1 fb2.2 with
      | error e =>
        rw [h3, exbind_error] at h
        simp only [Except.error.injEq] at h
        rcases busway_both_error _ _ _ _ _ h3 with he | he | he <;>
          simp [he, TagsToLanes.RoadMsg.unsupported_str,
            TagsToLanes.RoadError.ambiguous_str] at h
      | ok fb3 =>
        rw [h3, exbind_ok] at h
        cases h4 : TagsToLanes.busway_forward tags locale fb3.1 fb3.2 with
        | error e =>
          rw [h4, exbind_error] at h
          simp only [Except.error.injEq] at h
          have he := busway_forward_error _ _ _ _ _ h4
          simp [he, TagsToLanes.RoadMsg.unsupported_str] at h
        | ok fb4 =>
          rw [h4, exbind_ok] at h
          rcases busway_backward_error _ _ _ _ _ h with he | he <;>
            simp [TagsToLanes.RoadMsg.unsupported_str,
              TagsToLanes.RoadError.ambiguous_str] at he

/-- C1 counterexample: with both a `busway` key and a `lanes:bus` key
present (two scheme families) but no `bus:lanes`/`psv:lanes` key, the bus
pass does not fail — the `(true, _, false)` match arm runs the busway
scheme — refuting "keys from more than one scheme family present implies
the Unsupported scheme-mixing error". -/
theorem c1_counterexample :
    TagsToLanes.bus [("busway", "lane"), ("lanes:bus", "1")] ⟨.Right⟩ .No
        [⟨.None, .None⟩] [⟨.None, .None⟩] [] =
      some (.ok ([⟨.None, .Direct .Bus⟩], [⟨.None, .Direct .Bus⟩], [])) ∧
    TagsToLanes.bus [("busway", "lane"), ("lanes:bus", "1")] ⟨.Right⟩ .No
        [⟨.None, .None⟩] [⟨.None, .None⟩] [] ≠
      some (.error (TagsToLanes.RoadMsg.Unsupported
        (some "more than one bus lanes scheme used") none)) := by
  constructor
  · decide
  · decide

/-- C1 amended: the bus pass fails with
`Unsupported("more than one bus lanes scheme used")` exactly when the
`bus:lanes*`/`psv:lanes*` family is present together with at least one of
the other two families; `busway*` together with `lanes:bus*`/`lanes:psv*`
alone is handled by the busway scheme. -/
theorem c1_amended (tags : Tags) (locale : TagsToLanes.Locale)
    (ow : TagsToLanes.Oneway) (f b : List TagsToLanes.LaneBuilder)
    (w : List TagsToLanes.RoadMsg) :
    (TagsToLanes.bus tags locale ow f b w =
        some (.error (TagsToLanes.RoadMsg.Unsupported
          (some "more than one bus lanes scheme used") none)) ↔
      (Tags.treeHas tags "bus:lanes" || Tags.treeHas tags "psv:lanes") = true ∧
        (Tags.treeHas tags "busway" = true ∨
          (Tags.treeHas tags "lanes:bus" || Tags.treeHas tags "lanes:psv") = true)) := by
  unfold TagsToLanes.bus
  cases h1 : Tags.treeHas tags "busway" with
  | false =>
    cases h2 : (Tags.treeHas tags "lanes:bus" || Tags.treeHas tags "lanes:psv") with
    | false =>
      cases h3 : (Tags.treeHas tags "bus:lanes" || Tags.treeHas tags "psv:lanes") with
      | false => simp
      | true =>
        cases hbl : TagsToLanes.bus_lanes tags locale ow f b with
        | none => simp
        | some fb => simp
    | true =>
      cases h3 : (Tags.treeHas tags "bus:lanes" || Tags.treeHas tags "psv:lanes") with
      | false => simp [TagsToLanes.lanes_bus]
      | true => simp
  | true =>
    cases h3 : (Tags.treeHas tags "bus:lanes" || Tags.treeHas tags "psv:lanes") with
    | false =>
      have hne := busway_error_ne_scheme_mix tags locale ow f b
      cases hw : TagsToLanes.busway tags locale ow f b with
      | ok fb => simp
      | error e =>
        rw [hw] at hne
        simp only [ne_eq, Except.error.injEq] at hne
        simp [hne]
    | true => simp

/-! ## Claim C5: `busway=lane` designation -/

/-- C5 counterexample: on `{busway=lane, oneway:bus=yes}` the road is not
oneway (no `oneway` tag, and the pass's oneway parameter is No), yet only
the forward outermost lane is designated Bus and the backward lane is left
untouched — refuting "Bus on the outermost lane of each side when the road
is not oneway". -/
theorem c5_counterexample :
    TagsToLanes.busway [("busway", "lane"), ("oneway:bus", "yes")] ⟨.Right⟩ .No
        [⟨.None, .None⟩] [⟨.None, .None⟩] =
      .ok ([⟨.None, .Direct .Bus⟩], [⟨.None, .None⟩]) ∧
    TagsToLanes.Oneway.No.toBool = false := by
  constructor
  · decide
  · decide

/-- C5 amended: with `busway=lane` and no other matching `busway:*` key,
and nonempty sides, the outermost (last) forward lane is always designated
Bus, and the outermost backward lane is designated Bus exactly when neither
`oneway=yes` nor `oneway:bus=yes` is tagged; the pass does not consult the
road's computed oneway status. -/
theorem c5_amended (t : Tags) (loc : TagsToLanes.Locale) (ow : TagsToLanes.Oneway)
    (f b : List TagsToLanes.LaneBuilder) (hf : f ≠ []) (hb : b ≠ [])
    (hlane : Tags.is t "busway" "lane" = true)
    (hnb : Tags.is t "busway:both" "lane" = false)
    (hnds : Tags.is t ("busway:" ++ loc.driving_side.tagStr) "lane" = false)
    (hnopp : Tags.is t ("busway:" ++ loc.driving_side.opposite.tagStr) "lane" = false) :
    TagsToLanes.busway t loc ow f b =
      .ok (modifyLast (fun l => l.set_bus loc) f,
        if (Tags.is t "oneway" "yes" || Tags.is t "oneway:bus" "yes") then b
        else modifyLast (fun l => l.set_bus loc) b) := by
  have hget : Tags.get t "busway" = some "lane" := Tags.is_iff_get.mp hlane
  have hop : Tags.is t "busway" "opposite_lane" = false := by
    simp [Tags.is, hget]
  have hsf : TagsToLanes.setBusLast loc "no forward lanes for busway" f =
      .ok (modifyLast (fun l => l.set_bus loc) f) := by
    cases f with
    | nil => exact absurd rfl hf
    | cons a fl => rfl
  have hsb : TagsToLanes.setBusLast loc "no backward lanes for busway" b =
      .ok (modifyLast (fun l => l.set_bus loc) b) := by
    cases b with
    | nil => exact absurd rfl hb
    | cons c bl => rfl
  unfold TagsToLanes.busway TagsToLanes.busway_lane TagsToLanes.busway_opposite_lane
    TagsToLanes.busway_both TagsToLanes.busway_forward TagsToLanes.busway_backward
  cases how : (Tags.is t "oneway" "yes" || Tags.is t "oneway:bus" "yes") with
  | true =>
    have h1 : (!(Tags.is t "oneway" "yes") && !(Tags.is t "oneway:bus" "yes")) = false := by
      cases hA : Tags.is t "oneway" "yes" <;>
        cases hB : Tags.is t "oneway:bus" "yes" <;> simp_all
    simp [hlane, hop, hnb, hnds, hnopp, hsf, hsb, h1, how, exbind_ok]
  | false =>
    have hA : Tags.is t "oneway" "yes" = false := by
      cases hx : Tags.is t "oneway" "yes" <;> simp_all
    have hB : Tags.is t "oneway:bus" "yes" = false := by
      cases hx : Tags.is t "oneway:bus" "yes" <;> simp_all
    simp [hlane, hop, hnb, hnds, hnopp, hsf, hsb, hA, hB, how, exbind_ok]

/-- Witness for C5's amended theorem at the concrete input
`{busway=lane}` with one lane per side under right-hand traffic. -/
theorem c5_amended_witness :
    TagsToLanes.busway [("busway", "lane")] ⟨.Right⟩ .No
        [(⟨.None, .None⟩ : TagsToLanes.LaneBuilder)] [⟨.None, .None⟩] =
      .ok (modifyLast (fun l => l.set_bus ⟨.Right⟩) [(⟨.None, .None⟩ : TagsToLanes.LaneBuilder)],
        if (Tags.is [("busway", "lane")] "oneway" "yes" ||
            Tags.is [("busway", "lane")] "oneway:bus" "yes") then
          [(⟨.None, .None⟩ : TagsToLanes.LaneBuilder)]
        else modifyLast (fun l => l.set_bus ⟨.Right⟩)
          [(⟨.None, .None⟩ : TagsToLanes.LaneBuilder)]) :=
  c5_amended [("busway", "lane")] ⟨.Right⟩ .No [⟨.None, .None⟩] [⟨.None, .None⟩]
    (by decide) (by decide) (by decide) (by decide) (by decide) (by decide)

/-! ## Claim C2: nonemptiness of successful results -/

/-- `modifyIdx` preserves length. -/
theorem modifyIdx_length (l : List α) (i : Nat) (f : α → α) :
    (modifyIdx l i f).length = l.length := by
  induction l generalizing i with
  | nil => rfl
  | cons a rest ih =>
    cases i with
    | zero => simp [modifyIdx]
    | succ n => simp [modifyIdx, ih]

/-- `insertIdx` never shrinks a list. -/
theorem insertIdx_length_ge (l : List α) (i : Nat) (a : α) :
    l.length ≤ (insertIdx l i a).length := by
  induction l generalizing i with
  | nil => cases i <;> simp [insertIdx]
  | cons x rest ih =>
    cases i with
    | zero => simp [insertIdx]
    | succ n =>
      simp only [insertIdx, List.length_cons, Nat.succ_le_succ_iff]
      exact ih n

/-- The bus-marking fold step preserves length. -/
theorem bus_mark_length (offset : Nat) (side : List LaneSpec) (p : Nat × String) :
    (bus_mark offset side p).length = side.length := by
  unfold bus_mark
  split
  · exact modifyIdx_length side _ _
  · rfl

/-- Folding bus marks preserves length. -/
theorem foldl_bus_mark_length (ps : List (Nat × String)) (offset : Nat)
    (side : List LaneSpec) :
    (ps.foldl (bus_mark offset) side).length = side.length := by
  induction ps generalizing side with
  | nil => rfl
  | cons p rest ih => simp [List.foldl_cons, ih, bus_mark_length]

/-- `bus_apply_fwd` preserves length on success. -/
theorem bus_apply_fwd_length (spec : String) (f f' : List LaneSpec)
    (h : bus_apply_fwd spec f = some f') : f'.length = f.length := by
  unfold bus_apply_fwd at h
  split at h
  · injection h with h
    rw [← h]
  · split at h
    · exact absurd h (by simp)
    · dsimp only at h
      repeat' split at h
      all_goals injection h with h
      all_goals rw [← h]
      all_goals try exact foldl_bus_mark_length _ _ _
      all_goals rfl

/-- `bus_apply_back` preserves length. -/
theorem bus_apply_back_length (spec : String) (b : List LaneSpec) :
    (bus_apply_back spec b).length = b.length := by
  unfold bus_apply_back
  dsimp only
  split
  · exact foldl_bus_mark_length _ _ _
  · rfl

/-- The old bus pass preserves both sides' lengths on success. -/
theorem bus_length (tags : Tags) (cfg : Config) (ow : Bool) (f b : List LaneSpec)
    (fb : List LaneSpec × List LaneSpec) (h : bus tags cfg ow f b = some fb) :
    fb.1.length = f.length ∧ fb.2.length = b.length := by
  unfold bus at h
  cases hf : bus_apply_fwd (fwd_bus_spec tags ow) f with
  | none => rw [hf] at h; exact absurd h (by simp)
  | some f' =>
    rw [hf] at h
    have hl := bus_apply_fwd_length _ _ _ hf
    injection h with h
    subst h
    refine ⟨hl, ?_⟩
    split
    · exact bus_apply_back_length _ _
    · split
      · exact bus_apply_back_length _ _
      · rfl

/-- The push phase of the bicycle pass never shrinks a side. -/
theorem bicycle_push_length (tags : Tags) (cfg : Config) (ow : Bool)
    (f b : List LaneSpec) (w : LaneSpecWarnings)
    (f' b' : List LaneSpec) (w' : LaneSpecWarnings)
    (h : bicycle_push tags cfg ow f b w = .ok (f', b', w')) :
    f.length ≤ f'.length ∧ b.length ≤ b'.length := by
  have stepb : ∀ b0 w0, b0.length ≤ (bicycle_opposite_warn tags b0 w0).1.length := by
    intro b0 w0
    unfold bicycle_opposite_warn
    split <;> simp
  have stepf1 : ∀ f0, f0.length ≤ (bicycle_forward_lane tags cfg f0).length := by
    intro f0
    unfold bicycle_forward_lane
    split
    · split <;> simp
    · simp
  have stepf2 : ∀ f0 w0, f0.length ≤ (bicycle_forward_opposite tags cfg f0 w0).1.length := by
    intro f0 w0
    unfold bicycle_forward_opposite
    split <;> simp
  have stepfb : ∀ f0 b0,
      f0.length ≤ (bicycle_backward_lane tags cfg ow f0 b0).1.length ∧
      b0.length ≤ (bicycle_backward_lane tags cfg ow f0 b0).2.length := by
    intro f0 b0
    unfold bicycle_backward_lane
    repeat' split
    all_goals constructor <;> simp
  unfold bicycle_push at h
  dsimp only at h
  repeat' split at h
  all_goals
    first
      | (simp only [Except.ok.injEq, Prod.mk.injEq] at h
         obtain ⟨h1, h2, h3⟩ := h
         subst h1
         subst h2
         refine ⟨?_, ?_⟩ <;>
           first
             | ((try simp only [List.length_append, List.length_cons,
                  List.length_nil]); omega)
             | exact Nat.le_trans (stepf1 f)
                 (Nat.le_trans (stepf2 _ _)
                   (stepfb (bicycle_forward_opposite tags cfg
                     (bicycle_forward_lane tags cfg f) _).1 _).1)
             | exact Nat.le_trans (stepb b w)
                 (stepfb _ (bicycle_opposite_warn tags b w).1).2)
      | simp at h

/-- The buffer phase of the bicycle pass never shrinks a side. -/
theorem bicycle_buffers_length (tags : Tags) (f b : List LaneSpec) :
    f.length ≤ (bicycle_buffers tags f b).1.length ∧
    b.length ≤ (bicycle_buffers tags f b).2.length := by
  have h1 : ∀ l, l.length ≤ (bicycle_buffer_right_left tags l).length := by
    intro l
    unfold bicycle_buffer_right_left
    repeat' split
    all_goals first
      | exact Nat.le_refl _
      | exact insertIdx_length_ge _ _ _
  have h2 : ∀ l, l.length ≤ (bicycle_buffer_left_left tags l).length := by
    intro l
    unfold bicycle_buffer_left_left
    repeat' split
    all_goals first
      | exact Nat.le_refl _
      | exact insertIdx_length_ge _ _ _
  have h3 : ∀ l, l.length ≤ (bicycle_buffer_left_right tags l).length := by
    intro l
    unfold bicycle_buffer_left_right
    repeat' split
    all_goals first
      | exact Nat.le_refl _
      | exact insertIdx_length_ge _ _ _
  exact ⟨Nat.le_trans (h1 f) (h3 _), h2 b⟩

/-- The bicycle pass never shrinks a side on success. -/
theorem bicycle_length (tags : Tags) (cfg : Config) (ow : Bool)
    (f b : List LaneSpec) (w : LaneSpecWarnings)
    (f' b' : List LaneSpec) (w' : LaneSpecWarnings)
    (h : bicycle tags cfg ow f b w = .ok (f', b', w')) :
    f.length ≤ f'.length ∧ b.length ≤ b'.length := by
  unfold bicycle at h
  cases hp : bicycle_push tags cfg ow f b w with
  | error e => rw [hp] at h; exact absurd h (by simp)
  | ok fbw =>
    obtain ⟨f1, b1, w1⟩ := fbw
    rw [hp] at h
    dsimp only at h
    split at h
    · exact absurd h (by simp)
    · simp only [Except.ok.injEq, Prod.mk.injEq] at h
      obtain ⟨h1, h2, h3⟩ := h
      subst h1
      subst h2
      have hl := bicycle_push_length _ _ _ _ _ _ _ _ _ hp
      have hb := bicycle_buffers_length tags f1 b1
      exact ⟨Nat.le_trans hl.1 hb.1, Nat.le_trans hl.2 hb.2⟩

/-- The parking pass never shrinks a side. -/
theorem parking_length (tags : Tags) (cfg : Config) (ow : Bool)
    (f b : List LaneSpec) :
    f.length ≤ (parking tags cfg ow f b).1.length ∧
    b.length ≤ (parking tags cfg ow f b).2.length := by
  unfold parking
  dsimp only
  constructor <;> (split <;> simp)

/-- The walking pass never shrinks a side. -/
theorem walking_length (tags : Tags) (cfg : Config) (ow : Bool)
    (f b : List LaneSpec) :
    f.length ≤ (walking tags cfg ow f b).1.length ∧
    b.length ≤ (walking tags cfg ow f b).2.length := by
  have hs : f.length ≤ (walking_sidewalk tags cfg f b).1.length ∧
      b.length ≤ (walking_sidewalk tags cfg f b).2.length := by
    unfold walking_sidewalk
    repeat' split
    all_goals constructor <;> simp
  have hh : ∀ (f1 b1 : List LaneSpec),
      f1.length ≤ (walking_shoulder tags cfg ow f1 b1).1.length ∧
      b1.length ≤ (walking_shoulder tags cfg ow f1 b1).2.length := by
    intro f1 b1
    unfold walking_shoulder
    dsimp only
    repeat' split
    all_goals constructor <;> simp
  unfold walking
  dsimp only
  exact ⟨Nat.le_trans hs.1 (hh _ _).1, Nat.le_trans hs.2 (hh _ _).2⟩

/-- `assemble_ltr` output length is the sum of the side lengths. -/
theorem assemble_ltr_length (f b : List LaneSpec) (ds : DrivingSide) :
    (assemble_ltr f b ds).length = f.length + b.length := by
  cases ds <;> simp [assemble_ltr, List.reverseAux_eq] <;> omega

/-- A successful `non_motorized` fast path always returns a nonempty lane
list. -/
theorem non_motorized_lanes_nonempty (tags : Tags) (cfg : Config)
    (r : Except LaneSpecError Lanes) (h : non_motorized tags cfg = some r) :
    ∃ ls, r = .ok ls ∧ ls.lanes ≠ [] := by
  unfold non_motorized at h
  dsimp only at h
  repeat' split at h
  all_goals
    first
      | (injection h with h
         refine ⟨_, h.symm, ?_⟩
         apply List.ne_nil_of_length_pos
         simp only [assemble_ltr_length, List.length_cons, List.length_append,
           List.length_nil]
         repeat' split
         all_goals simp
         all_goals omega)
      | simp at h

/-- C2 counterexample: on `{lanes:forward=0, lanes:backward=0}` (zero
driving lanes each way, no other features, `inferred_sidewalks` off) the
inference succeeds and returns an empty lane list. -/
theorem c2_counterexample :
    get_lane_specs_ltr_with_warnings [("lanes:forward", "0"), ("lanes:backward", "0")]
      ⟨.Right, false⟩ = some (.ok ⟨[], []⟩) := by decide

/-- C2 amended: a successful inference returns a nonempty lane list
whenever the non-motorized fast path applies, or at least one driving lane
is counted, or a shared-left-turn lane is added; only the degenerate case
of zero lanes in both directions with no centre turn lane (and nothing else
pushed) can produce an empty list. -/
theorem c2_amended (tags : Tags) (cfg : Config) (l : Lanes) (nf nb : Nat)
    (hrun : get_lane_specs_ltr_with_warnings tags cfg = some (.ok l))
    (hcounts : driving_lane_directions tags cfg (oneway_tag tags) = some (nf, nb))
    (hpos : 1 ≤ nf + nb ∨ centre_turn tags = true ∨
      (non_motorized tags cfg).isSome = true) :
    l.lanes ≠ [] := by
  cases hnm : non_motorized tags cfg with
  | some r =>
    obtain ⟨ls, rfl, hne⟩ := non_motorized_lanes_nonempty tags cfg r hnm
    unfold get_lane_specs_ltr_with_warnings at hrun
    rw [hnm] at hrun
    injection hrun with hrun
    injection hrun with hrun
    rw [← hrun]
    exact hne
  | none =>
    have hpos' : 1 ≤ nf + nb ∨ centre_turn tags = true := by
      rcases hpos with h | h | h
      · exact Or.inl h
      · exact Or.inr h
      · rw [hnm] at h; exact absurd h (by simp)
    unfold get_lane_specs_ltr_with_warnings at hrun
    rw [hnm] at hrun
    simp only [hcounts] at hrun
    set fwd0 : List LaneSpec :=
      List.replicate nf (LaneSpec.forward (driving_lane_type tags)) with hfwd0
    set back0 : List LaneSpec :=
      List.replicate nb (LaneSpec.backward (driving_lane_type tags)) with hback0
    set fwd1 : List LaneSpec :=
      if centre_turn tags then LaneSpec.both .SharedLeftTurn :: fwd0 else fwd0 with hfwd1
    have hlen1 : 1 ≤ fwd1.length + back0.length := by
      rw [hfwd1, hfwd0, hback0]
      rcases hpos' with h | h
      · split <;> simp <;> omega
      · simp [h] <;> omega
    split at hrun
    · -- construction early return
      injection hrun with hrun
      injection hrun with hrun
      apply List.ne_nil_of_length_pos
      rw [← hrun]
      simp only [assemble_ltr_length]
      omega
    · cases hbus : bus tags cfg (oneway_tag tags) fwd1 back0 with
      | none => rw [hbus] at hrun; exact absurd hrun (by simp)
      | some fb2 =>
        rw [hbus] at hrun
        dsimp only at hrun
        have hl2 := bus_length _ _ _ _ _ _ hbus
        cases hbic : bicycle tags cfg (oneway_tag tags) fb2.1 fb2.2 [] with
        | error e => rw [hbic] at hrun; exact absurd hrun (by simp)
        | ok fbw3 =>
          obtain ⟨f3, b3, w3⟩ := fbw3
          rw [hbic] at hrun
          dsimp only at hrun
          have hl3 := bicycle_length _ _ _ _ _ _ _ _ _ hbic
          injection hrun with hrun
          injection hrun with hrun
          apply List.ne_nil_of_length_pos
          rw [← hrun]
          simp only [assemble_ltr_length]
          have hl4 := parking_length tags cfg (oneway_tag tags) f3 b3
          set fb4 : List LaneSpec × List LaneSpec :=
            if driving_lane_type tags = LaneType.Driving then
              parking tags cfg (oneway_tag tags) f3 b3
            else (f3, b3) with hfb4
          have hl4' : f3.length ≤ fb4.1.length ∧ b3.length ≤ fb4.2.length := by
            rw [hfb4]
            split
            · exact hl4
            · exact ⟨Nat.le_refl _, Nat.le_refl _⟩
          have hl5 := walking_length tags cfg (oneway_tag tags) fb4.1 fb4.2
          omega

/-- Witness for C2's amended theorem: empty tags with inferred sidewalks
give two driving lanes with shoulders, a nonempty list. -/
theorem c2_amended_witness :
    (⟨[LaneSpec.both .Shoulder, LaneSpec.backward .Driving,
       LaneSpec.forward .Driving, LaneSpec.both .Shoulder], []⟩ : Lanes).lanes ≠ [] :=
  c2_amended [] ⟨.Right, true⟩
    ⟨[LaneSpec.both .Shoulder, LaneSpec.backward .Driving,
      LaneSpec.forward .Driving, LaneSpec.both .Shoulder], []⟩ 1 1
    (by decide) (by decide) (Or.inl (by decide))

/-! ## Claim C6: mirror symmetry -/

/-- Modelled from the spec (§8, "mirrored tags"): mirroring swaps `left`
and `right` in the sided keys and values.  The swap is given on the sided
keys the old pipeline reads and on the bare `left`/`right` values; every
other string is left unchanged, which is immaterial because the engine
never reads other sided keys. -/
def mirrorStr (s : String) : String :=
  if s = "left" then "right"
  else if s = "right" then "left"
  else if s = "parking:lane:left" then "parking:lane:right"
  else if s = "parking:lane:right" then "parking:lane:left"
  else if s = "cycleway:left" then "cycleway:right"
  else if s = "cycleway:right" then "cycleway:left"
  else if s = "cycleway:left:oneway" then "cycleway:right:oneway"
  else if s = "cycleway:right:oneway" then "cycleway:left:oneway"
  else if s = "cycleway:left:separation:left" then "cycleway:right:separation:right"
  else if s = "cycleway:right:separation:right" then "cycleway:left:separation:left"
  else if s = "cycleway:left:separation:right" then "cycleway:right:separation:left"
  else if s = "cycleway:right:separation:left" then "cycleway:left:separation:right"
  else s

/-- Mirroring a tag store: swap sides in every key and value. -/
def mirrorTags (t : Tags) : Tags :=
  t.map (fun kv => (mirrorStr kv.1, mirrorStr kv.2))

/-- Mirroring a warning: its attached tag subset is mirrored. -/
def mirrorWarning (w : LaneSpecWarning) : LaneSpecWarning :=
  ⟨w.description, mirrorTags w.tags⟩

/-- `mirrorStr` is an involution. -/
theorem mirrorStr_mirrorStr (s : String) : mirrorStr (mirrorStr s) = s := by
  by_cases h1 : s = "left"
  · subst h1; decide
  by_cases h2 : s = "right"
  · subst h2; decide
  by_cases h3 : s = "parking:lane:left"
  · subst h3; decide
  by_cases h4 : s = "parking:lane:right"
  · subst h4; decide
  by_cases h5 : s = "cycleway:left"
  · subst h5; decide
  by_cases h6 : s = "cycleway:right"
  · subst h6; decide
  by_cases h7 : s = "cycleway:left:oneway"
  · subst h7; decide
  by_cases h8 : s = "cycleway:right:oneway"
  · subst h8; decide
  by_cases h9 : s = "cycleway:left:separation:left"
  · subst h9; decide
  by_cases h10 : s = "cycleway:right:separation:right"
  · subst h10; decide
  by_cases h11 : s = "cycleway:left:separation:right"
  · subst h11; decide
  by_cases h12 : s = "cycleway:right:separation:left"
  · subst h12; decide
  have hs : mirrorStr s = s := by
    unfold mirrorStr
    rw [if_neg h1, if_neg h2, if_neg h3, if_neg h4, if_neg h5, if_neg h6,
      if_neg h7, if_neg h8, if_neg h9, if_neg h10, if_neg h11, if_neg h12]
  rw [hs, hs]

/-- Equality transport along the involution. -/
theorem mirrorStr_eq_iff (a b : String) : mirrorStr a = b ↔ a = mirrorStr b := by
  constructor
  · intro h; rw [← h, mirrorStr_mirrorStr]
  · intro h; rw [h, mirrorStr_mirrorStr]

/-- Every string is either fixed by `mirrorStr` or one of the finitely
many swapped pairs. -/
theorem mirrorStr_eq_or (v : String) :
    mirrorStr v = v ∨
    (v, mirrorStr v) ∈ ([("left", "right"), ("right", "left"),
      ("parking:lane:left", "parking:lane:right"),
      ("parking:lane:right", "parking:lane:left"),
      ("cycleway:left", "cycleway:right"), ("cycleway:right", "cycleway:left"),
      ("cycleway:left:oneway", "cycleway:right:oneway"),
      ("cycleway:right:oneway", "cycleway:left:oneway"),
      ("cycleway:left:separation:left", "cycleway:right:separation:right"),
      ("cycleway:right:separation:right", "cycleway:left:separation:left"),
      ("cycleway:left:separation:right", "cycleway:right:separation:left"),
      ("cycleway:right:separation:left", "cycleway:left:separation:right")] :
      List (String × String)) := by
  by_cases h1 : v = "left"
  · subst h1; right; decide
  by_cases h2 : v = "right"
  · subst h2; right; decide
  by_cases h3 : v = "parking:lane:left"
  · subst h3; right; decide
  by_cases h4 : v = "parking:lane:right"
  · subst h4; right; decide
  by_cases h5 : v = "cycleway:left"
  · subst h5; right; decide
  by_cases h6 : v = "cycleway:right"
  · subst h6; right; decide
  by_cases h7 : v = "cycleway:left:oneway"
  · subst h7; right; decide
  by_cases h8 : v = "cycleway:right:oneway"
  · subst h8; right; decide
  by_cases h9 : v = "cycleway:left:separation:left"
  · subst h9; right; decide
  by_cases h10 : v = "cycleway:right:separation:right"
  · subst h10; right; decide
  by_cases h11 : v = "cycleway:left:separation:right"
  · subst h11; right; decide
  by_cases h12 : v = "cycleway:right:separation:left"
  · subst h12; right; decide
  left
  unfold mirrorStr
  rw [if_neg h1, if_neg h2, if_neg h3, if_neg h4, if_neg h5, if_neg h6,
    if_neg h7, if_neg h8, if_neg h9, if_neg h10, if_neg h11, if_neg h12]

/-- Lookup in a mirrored tag store. -/
theorem get_mirrorTags (t : Tags) (k : String) :
    Tags.get (mirrorTags t) k = (Tags.get t (mirrorStr k)).map mirrorStr := by
  induction t with
  | nil => rfl
  | cons kv rest ih =>
    simp only [mirrorTags, List.map_cons, Tags.get] at ih ⊢
    by_cases h : mirrorStr kv.1 = k
    · rw [if_pos h, if_pos ((mirrorStr_eq_iff _ _).mp h)]
      rfl
    · rw [if_neg h, if_neg (fun hc => h ((mirrorStr_eq_iff _ _).mpr hc))]
      exact ih

/-- Membership check in a mirrored value list. -/
theorem contains_map_mirrorStr (vs : List String) (x : String) :
    (vs.map mirrorStr).contains x = vs.contains (mirrorStr x) := by
  induction vs with
  | nil => rfl
  | cons a rest ih =>
    simp only [List.map_cons, List.contains_cons, ih]
    congr 1
    by_cases h : mirrorStr x = a
    · have h2 : x = mirrorStr a := (mirrorStr_eq_iff _ _).mp h
      simp [h, h2, mirrorStr_mirrorStr]
    · have h2 : x ≠ mirrorStr a := fun hc => h ((mirrorStr_eq_iff _ _).mpr hc)
      simp [h, h2]

/-- `Tags.is` on a mirrored tag store. -/
theorem is_mirrorTags (t : Tags) (k v : String) :
    Tags.is (mirrorTags t) k v = Tags.is t (mirrorStr k) (mirrorStr v) := by
  simp only [Tags.is, get_mirrorTags]
  rcases hg : Tags.get t (mirrorStr k) with _ | x
  · rfl
  · simp only [Option.map_some']
    have : (mirrorStr x = v) ↔ (x = mirrorStr v) := mirrorStr_eq_iff x v
    simp [this]

/-- `Tags.isAny` on a mirrored tag store. -/
theorem isAny_mirrorTags (t : Tags) (k : String) (vs : List String) :
    Tags.isAny (mirrorTags t) k vs =
      Tags.isAny t (mirrorStr k) (vs.map mirrorStr) := by
  unfold Tags.isAny
  rw [get_mirrorTags]
  rcases hg : Tags.get t (mirrorStr k) with _ | x
  · rfl
  · simp only [Option.map_some']
    rw [contains_map_mirrorStr]

/-- `Tags.subset` on a mirrored tag store. -/
theorem subset_mirrorTags (t : Tags) (ks : List String) :
    Tags.subset (mirrorTags t) ks =
      mirrorTags (Tags.subset t (ks.map mirrorStr)) := by
  induction t with
  | nil => rfl
  | cons kv rest ih =>
    unfold mirrorTags Tags.subset at ih ⊢
    simp only [List.map_cons, List.filter_cons]
    rw [contains_map_mirrorStr ks kv.1]
    cases h : ks.contains (mirrorStr kv.1) with
    | true =>
      simp only [h, if_true, List.map_cons]
      rw [ih]
    | false =>
      simp only [h, Bool.false_eq_true, if_false]
      exact ih

/-- Mirroring preserves numeric parsing (no swapped string is numeric). -/
theorem parseUsize_mirrorStr (v : String) :
    parseUsize (mirrorStr v) = parseUsize v := by
  rcases mirrorStr_eq_or v with h | h
  · rw [h]
  · simp only [List.mem_cons, List.not_mem_nil, or_false] at h
    rcases h with h|h|h|h|h|h|h|h|h|h|h|h <;>
      (rw [Prod.mk.injEq] at h
       obtain ⟨hv, hm⟩ := h
       subst hv
       rw [hm]
       decide)

/-- Mirroring preserves emptiness. -/
theorem strIsEmpty_mirrorStr (v : String) :
    strIsEmpty (mirrorStr v) = strIsEmpty v := by
  rcases mirrorStr_eq_or v with h | h
  · rw [h]
  · simp only [List.mem_cons, List.not_mem_nil, or_false] at h
    rcases h with h|h|h|h|h|h|h|h|h|h|h|h <;>
      (rw [Prod.mk.injEq] at h
       obtain ⟨hv, hm⟩ := h
       subst hv
       rw [hm]
       decide)

/-- Mirroring preserves the `starts_with("no")` test. -/
theorem strStartsWith_no_mirrorStr (v : String) :
    strStartsWith (mirrorStr v) "no" = strStartsWith v "no" := by
  rcases mirrorStr_eq_or v with h | h
  · rw [h]
  · simp only [List.mem_cons, List.not_mem_nil, or_false] at h
    rcases h with h|h|h|h|h|h|h|h|h|h|h|h <;>
      (rw [Prod.mk.injEq] at h
       obtain ⟨hv, hm⟩ := h
       subst hv
       rw [hm]
       decide)

/-- Mirroring preserves the separation-type mapping (no swapped string is
a separation value). -/
theorem osm_separation_type_mirrorStr (v : String) :
    osm_separation_type (mirrorStr v) = osm_separation_type v := by
  rcases mirrorStr_eq_or v with h | h
  · rw [h]
  · simp only [List.mem_cons, List.not_mem_nil, or_false] at h
    rcases h with h|h|h|h|h|h|h|h|h|h|h|h <;>
      (rw [Prod.mk.injEq] at h
       obtain ⟨hv, hm⟩ := h
       subst hv
       rw [hm]
       decide)

/-- A one-fragment non-`designated` spec string leaves the forward side of
the old bus pass unchanged (panicking only on an empty side). -/
theorem bus_apply_fwd_nondesig (x : String) (hne : strIsEmpty x = false)
    (hx : splitPipe x = [x]) (hd : x ≠ "designated") (side : List LaneSpec) :
    bus_apply_fwd x side =
      match side with
      | [] => none
      | _ => some side := by
  unfold bus_apply_fwd
  rw [hne]
  cases side with
  | nil => simp
  | cons a l =>
    dsimp only
    rw [hx]
    simp only [List.enum, List.enumFrom, List.foldl_cons, List.foldl_nil]
    rw [show bus_mark (if a.lane_type = LaneType.SharedLeftTurn then 1 else 0)
        (a :: l) (0, x) = a :: l by
      unfold bus_mark
      simp [hd]]
    repeat' split
    all_goals rfl

/-- A one-fragment non-`designated` spec string leaves the backward side of
the old bus pass unchanged. -/
theorem bus_apply_back_nondesig (x : String) (hx : splitPipe x = [x])
    (hd : x ≠ "designated") (side : List LaneSpec) :
    bus_apply_back x side = side := by
  unfold bus_apply_back
  dsimp only
  rw [hx]
  simp only [List.enum, List.enumFrom, List.foldl_cons, List.foldl_nil]
  rw [show bus_mark 0 side (0, x) = side by unfold bus_mark; simp [hd]]
  repeat' split
  all_goals rfl

/-- Mirroring a forward bus spec string does not change its effect. -/
theorem bus_apply_fwd_mirrorStr (v : String) (side : List LaneSpec) :
    bus_apply_fwd (mirrorStr v) side = bus_apply_fwd v side := by
  rcases mirrorStr_eq_or v with h | h
  · rw [h]
  · simp only [List.mem_cons, List.not_mem_nil, or_false] at h
    rcases h with h|h|h|h|h|h|h|h|h|h|h|h <;>
      (rw [Prod.mk.injEq] at h
       obtain ⟨hv, hm⟩ := h
       subst hv
       rw [hm]
       rw [bus_apply_fwd_nondesig _ (by decide) (by decide) (by decide),
         bus_apply_fwd_nondesig _ (by decide) (by decide) (by decide)])

/-- Mirroring a backward bus spec string does not change its effect. -/
theorem bus_apply_back_mirrorStr (v : String) (side : List LaneSpec) :
    bus_apply_back (mirrorStr v) side = bus_apply_back v side := by
  rcases mirrorStr_eq_or v with h | h
  · rw [h]
  · simp only [List.mem_cons, List.not_mem_nil, or_false] at h
    rcases h with h|h|h|h|h|h|h|h|h|h|h|h <;>
      (rw [Prod.mk.injEq] at h
       obtain ⟨hv, hm⟩ := h
       subst hv
       rw [hm]
       rw [bus_apply_back_nondesig _ (by decide) (by decide),
         bus_apply_back_nondesig _ (by decide) (by decide)])

/-- The forward bus spec of a mirrored store is the mirrored spec. -/
theorem fwd_bus_spec_mirror (t : Tags) (ow : Bool) :
    fwd_bus_spec (mirrorTags t) ow = mirrorStr (fwd_bus_spec t ow) := by
  unfold fwd_bus_spec
  simp only [get_mirrorTags,
    show mirrorStr "bus:lanes:forward" = "bus:lanes:forward" from by decide,
    show mirrorStr "psv:lanes:forward" = "psv:lanes:forward" from by decide,
    show mirrorStr "bus:lanes" = "bus:lanes" from by decide,
    show mirrorStr "psv:lanes" = "psv:lanes" from by decide]
  rcases Tags.get t "bus:lanes:forward" with _ | s
  · rcases Tags.get t "psv:lanes:forward" with _ | s
    · cases ow
      · simp [mirrorStr]
      · rcases Tags.get t "bus:lanes" with _ | s
        · rcases Tags.get t "psv:lanes" with _ | s
          · simp [mirrorStr]
          · simp
        · simp
    · simp
  · simp

/-- The old bus pass is blind to mirroring. -/
theorem bus_mirror (t : Tags) (cfg cfg' : Config) (ow : Bool)
    (f b : List LaneSpec) :
    bus (mirrorTags t) cfg' ow f b = bus t cfg ow f b := by
  unfold bus
  rw [fwd_bus_spec_mirror, bus_apply_fwd_mirrorStr]
  simp only [get_mirrorTags,
    show mirrorStr "bus:lanes:backward" = "bus:lanes:backward" from by decide,
    show mirrorStr "psv:lanes:backward" = "psv:lanes:backward" from by decide]
  rcases Tags.get t "bus:lanes:backward" with _ | s
  · rcases Tags.get t "psv:lanes:backward" with _ | s
    · rfl
    · simp [bus_apply_back_mirrorStr]
  · simp [bus_apply_back_mirrorStr]

/-- Parsing after mirroring an optional value. -/
theorem bind_parse_mirror (o : Option String) :
    (o.map mirrorStr).bind parseUsize = o.bind parseUsize := by
  cases o <;> simp [parseUsize_mirrorStr]

/-- The driving-lane count computation is blind to mirroring. -/
theorem driving_lane_directions_mirror (t : Tags) (cfg cfg' : Config) (ow : Bool) :
    driving_lane_directions (mirrorTags t) cfg' ow =
      driving_lane_directions t cfg ow := by
  have hbw : both_ways_count (mirrorTags t) = both_ways_count t := by
    unfold both_ways_count
    rw [get_mirrorTags, show mirrorStr "lanes:both_ways" = "lanes:both_ways" from by decide,
      bind_parse_mirror]
  have hfwd : ∀ o, fwd_count (mirrorTags t) o = fwd_count t o := by
    intro o
    unfold fwd_count
    rw [hbw, get_mirrorTags, get_mirrorTags,
      show mirrorStr "lanes:forward" = "lanes:forward" from by decide,
      show mirrorStr "lanes" = "lanes" from by decide,
      bind_parse_mirror, bind_parse_mirror]
  have hback : ∀ o n, back_count (mirrorTags t) o n = back_count t o n := by
    intro o n
    unfold back_count
    rw [hbw, get_mirrorTags, get_mirrorTags,
      show mirrorStr "lanes:backward" = "lanes:backward" from by decide,
      show mirrorStr "lanes" = "lanes" from by decide,
      bind_parse_mirror, bind_parse_mirror]
  unfold driving_lane_directions
  rw [hfwd]
  rcases fwd_count t ow with _ | nf
  · rfl
  · dsimp only
    rw [hback]

/-- The oneway determination is blind to mirroring. -/
theorem oneway_tag_mirror (t : Tags) :
    oneway_tag (mirrorTags t) = oneway_tag t := by
  unfold oneway_tag
  rw [isAny_mirrorTags, is_mirrorTags,
    show mirrorStr "oneway" = "oneway" from by decide,
    show ["yes", "reversible"].map mirrorStr = ["yes", "reversible"] from by decide,
    show mirrorStr "junction" = "junction" from by decide,
    show mirrorStr "roundabout" = "roundabout" from by decide]

/-- The centre-turn-lane condition is blind to mirroring. -/
theorem centre_turn_mirror (t : Tags) :
    centre_turn (mirrorTags t) = centre_turn t := by
  unfold centre_turn
  rw [is_mirrorTags, is_mirrorTags,
    show mirrorStr "lanes:both_ways" = "lanes:both_ways" from by decide,
    show mirrorStr "1" = "1" from by decide,
    show mirrorStr "centre_turn_lane" = "centre_turn_lane" from by decide,
    show mirrorStr "yes" = "yes" from by decide]

/-- The driving-lane type selection is blind to mirroring. -/
theorem driving_lane_type_mirror (t : Tags) :
    driving_lane_type (mirrorTags t) = driving_lane_type t := by
  have hbc : bus_condition (mirrorTags t) = bus_condition t := by
    unfold bus_condition
    rw [is_mirrorTags, is_mirrorTags, is_mirrorTags, get_mirrorTags,
      show mirrorStr "access" = "access" from by decide,
      show mirrorStr "no" = "no" from by decide,
      show mirrorStr "bus" = "bus" from by decide,
      show mirrorStr "yes" = "yes" from by decide,
      show mirrorStr "psv" = "psv" from by decide,
      show mirrorStr "motor_vehicle:conditional" = "motor_vehicle:conditional" from by decide]
    rcases Tags.get t "motor_vehicle:conditional" with _ | s
    · rfl
    · simp [strStartsWith_no_mirrorStr]
  unfold driving_lane_type
  rw [hbc, is_mirrorTags, is_mirrorTags,
    show mirrorStr "access" = "access" from by decide,
    show mirrorStr "no" = "no" from by decide,
    show mirrorStr "highway" = "highway" from by decide,
    show mirrorStr "construction" = "construction" from by decide]

/-- Assembling under the opposite driving side reverses the result. -/
theorem assemble_ltr_mirror (f b : List LaneSpec) :
    assemble_ltr f b .Left = (assemble_ltr f b .Right).reverse := by
  simp [assemble_ltr, List.reverseAux_eq]

/-- The sidewalk phase under the swapped side on mirrored tags. -/
theorem walking_sidewalk_mirror (t : Tags) (i : Bool) (f b : List LaneSpec) :
    walking_sidewalk (mirrorTags t) ⟨.Left, i⟩ f b =
      walking_sidewalk t ⟨.Right, i⟩ f b := by
  unfold walking_sidewalk
  rcases hg : Tags.get t "sidewalk" with _ | v
  · have hm : Tags.get (mirrorTags t) "sidewalk" = none := by
      rw [get_mirrorTags, show mirrorStr "sidewalk" = "sidewalk" from by decide, hg]
      rfl
    simp [Tags.is, hg, hm]
  · have hm : Tags.get (mirrorTags t) "sidewalk" = some (mirrorStr v) := by
      rw [get_mirrorTags, show mirrorStr "sidewalk" = "sidewalk" from by decide, hg]
      rfl
    by_cases h1 : v = "both"
    · subst h1; simp [Tags.is, hg, hm, mirrorStr]
    by_cases h2 : v = "separate"
    · subst h2; simp [Tags.is, hg, hm, mirrorStr]
    by_cases h3 : v = "right"
    · subst h3; simp [Tags.is, hg, hm, mirrorStr]
    by_cases h4 : v = "left"
    · subst h4; simp [Tags.is, hg, hm, mirrorStr]
    have m1 : mirrorStr v ≠ "both" := fun hc => h1 (by
      have hx := (mirrorStr_eq_iff v "both").mp hc
      rw [show mirrorStr "both" = "both" from by decide] at hx
      exact hx)
    have m2 : mirrorStr v ≠ "separate" := fun hc => h2 (by
      have hx := (mirrorStr_eq_iff v "separate").mp hc
      rw [show mirrorStr "separate" = "separate" from by decide] at hx
      exact hx)
    have m3 : mirrorStr v ≠ "right" := fun hc => h4 (by
      have hx := (mirrorStr_eq_iff v "right").mp hc
      rw [show mirrorStr "right" = "left" from by decide] at hx
      exact hx)
    have m4 : mirrorStr v ≠ "left" := fun hc => h3 (by
      have hx := (mirrorStr_eq_iff v "left").mp hc
      rw [show mirrorStr "left" = "right" from by decide] at hx
      exact hx)
    simp [Tags.is, hg, hm, h1, h2, h3, h4, m1, m2, m3, m4]

/-- The shoulder phase under the swapped side on mirrored tags. -/
theorem walking_shoulder_mirror (t : Tags) (i ow : Bool) (f b : List LaneSpec) :
    walking_shoulder (mirrorTags t) ⟨.Left, i⟩ ow f b =
      walking_shoulder t ⟨.Right, i⟩ ow f b := by
  unfold walking_shoulder
  rw [isAny_mirrorTags, is_mirrorTags, is_mirrorTags, is_mirrorTags, is_mirrorTags,
    is_mirrorTags,
    show mirrorStr "highway" = "highway" from by decide,
    show ["motorway", "motorway_link", "construction"].map mirrorStr =
      ["motorway", "motorway_link", "construction"] from by decide,
    show mirrorStr "foot" = "foot" from by decide,
    show mirrorStr "no" = "no" from by decide,
    show mirrorStr "access" = "access" from by decide,
    show mirrorStr "motorroad" = "motorroad" from by decide,
    show mirrorStr "yes" = "yes" from by decide,
    show mirrorStr "oneway" = "oneway" from by decide,
    show mirrorStr "living_street" = "living_street" from by decide]

/-- The walking pass under the swapped side on mirrored tags. -/
theorem walking_mirror (t : Tags) (i ow : Bool) (f b : List LaneSpec) :
    walking (mirrorTags t) ⟨.Left, i⟩ ow f b =
      walking t ⟨.Right, i⟩ ow f b := by
  unfold walking
  rw [walking_sidewalk_mirror, walking_shoulder_mirror]

/-- The parking pass under mirrored tags, assuming the two sided parking
keys agree on whether they specify parking. -/
theorem parking_mirror (t : Tags) (cfg cfg' : Config) (ow ow' : Bool)
    (f b : List LaneSpec)
    (hbal : Tags.isAny t "parking:lane:left" ["parallel", "diagonal", "perpendicular"] =
      Tags.isAny t "parking:lane:right" ["parallel", "diagonal", "perpendicular"]) :
    parking (mirrorTags t) cfg' ow' f b = parking t cfg ow f b := by
  unfold parking
  dsimp only
  rw [isAny_mirrorTags, isAny_mirrorTags, isAny_mirrorTags,
    show mirrorStr "parking:lane:right" = "parking:lane:left" from by decide,
    show mirrorStr "parking:lane:both" = "parking:lane:both" from by decide,
    show mirrorStr "parking:lane:left" = "parking:lane:right" from by decide,
    show ["parallel", "diagonal", "perpendicular"].map mirrorStr =
      ["parallel", "diagonal", "perpendicular"] from by decide]
  rw [hbal]

/-- The non-motorized fast path under the swapped side on mirrored tags:
same triggering, lanes reversed, warning tag subsets mirrored. -/
theorem non_motorized_mirror (t : Tags) (i : Bool) :
    non_motorized (mirrorTags t) ⟨.Left, i⟩ =
      (non_motorized t ⟨.Right, i⟩).map
        (Except.map fun ls => ⟨ls.lanes.reverse, ls.warnings.map mirrorWarning⟩) := by
  unfold non_motorized
  rw [isAny_mirrorTags, is_mirrorTags, is_mirrorTags, is_mirrorTags, isAny_mirrorTags,
    is_mirrorTags, is_mirrorTags, subset_mirrorTags,
    show mirrorStr "highway" = "highway" from by decide,
    show ["cycleway", "footway", "path", "pedestrian", "steps", "track"].map mirrorStr =
      ["cycleway", "footway", "path", "pedestrian", "steps", "track"] from by decide,
    show mirrorStr "steps" = "steps" from by decide,
    show mirrorStr "bicycle" = "bicycle" from by decide,
    show mirrorStr "no" = "no" from by decide,
    show mirrorStr "footway" = "footway" from by decide,
    show ["designated", "yes"].map mirrorStr = ["designated", "yes"] from by decide,
    show mirrorStr "oneway" = "oneway" from by decide,
    show mirrorStr "yes" = "yes" from by decide,
    show mirrorStr "foot" = "foot" from by decide,
    show ["highway"].map mirrorStr = ["highway"] from by decide]
  cases hc1 : Tags.isAny t "highway"
      ["cycleway", "footway", "path", "pedestrian", "steps", "track"] with
  | false => simp [hc1]
  | true =>
    cases hc2 : Tags.is t "highway" "steps" with
    | true => simp [hc1, hc2, mirrorWarning, Except.map]
    | false =>
      cases hc3 : (Tags.is t "bicycle" "no" ||
          (Tags.is t "highway" "footway" &&
            !(Tags.isAny t "bicycle" ["designated", "yes"]))) with
      | true => simp [hc1, hc2, hc3, Except.map]
      | false =>
        simp [hc1, hc2, hc3, Except.map, assemble_ltr, List.reverseAux_eq,
          List.reverse_append, List.reverse_reverse]

/-- Side projection of the `cycleway=opposite_lane` step. -/
theorem bicycle_opposite_warn_fst (t : Tags) (b : List LaneSpec) (w : LaneSpecWarnings) :
    (bicycle_opposite_warn t b w).1 =
      if Tags.is t "cycleway" "opposite_lane" then b ++ [LaneSpec.backward .Biking]
      else b := by
  unfold bicycle_opposite_warn
  split <;> rfl

/-- Side projection of the `cycleway:FORWARD=opposite_lane` step. -/
theorem bicycle_forward_opposite_fst (t : Tags) (cfg : Config)
    (f : List LaneSpec) (w : LaneSpecWarnings) :
    (bicycle_forward_opposite t cfg f w).1 =
      if Tags.isAny t ("cycleway:" ++ cfg.driving_side.tagStr)
          ["opposite_lane", "opposite_track"] then
        f ++ [LaneSpec.backward .Biking]
      else f := by
  unfold bicycle_forward_opposite
  split <;> rfl

/-- The push phase of the bicycle pass, projected to its sides, is the same
under the swapped driving side on mirrored tags (warnings may differ in
their attached tag subsets). -/
theorem bicycle_push_mirror (t : Tags) (i ow : Bool) (f b : List LaneSpec)
    (w wm : LaneSpecWarnings) :
    (bicycle_push (mirrorTags t) ⟨.Left, i⟩ ow f b wm).map (fun r => (r.1, r.2.1)) =
      (bicycle_push t ⟨.Right, i⟩ ow f b w).map (fun r => (r.1, r.2.1)) := by
  cases h0 : Tags.isAny t "cycleway" ["lane", "track"] <;>
    cases hb : Tags.isAny t "cycleway:both" ["lane", "track"] <;>
      cases hr : Tags.isAny t "cycleway:right" ["lane", "track"] <;>
        cases hl : Tags.isAny t "cycleway:left" ["lane", "track"] <;>
          simp [bicycle_push, is_cycleway, bicycle_opposite_warn_fst,
            bicycle_forward_opposite_fst, bicycle_forward_lane, bicycle_backward_lane,
            is_mirrorTags, isAny_mirrorTags, get_mirrorTags, mirrorStr,
            DrivingSide.tagStr, DrivingSide.opposite, h0, hb, hr, hl, Except.map] <;>
          (try (cases hop : Tags.isAny t "cycleway:left" ["opposite_lane", "opposite_track"] <;>
            simp [hop])) <;>
          (try (cases how : ow <;> cases b <;> simp [how]))

/-- The guard never fires under right-hand traffic. -/
theorem bicycle_guard_right (i : Bool) (f b : List LaneSpec) :
    bicycle_guard ⟨.Right, i⟩ f b = false := by
  simp [bicycle_guard]

/-- `findIdx?` finds nothing when `any` is false. -/
theorem findIdx?_none_of_any_false (p : α → Bool) (l : List α)
    (h : l.any p = false) : l.findIdx? p = none := by
  rw [List.findIdx?_eq_none_iff]
  rw [List.any_eq_false] at h
  intro x hx
  simpa using h x hx

/-- Without any bicycle lane the buffer phase is the identity, whatever the
tags say. -/
theorem bicycle_buffers_no_biking (t : Tags) (f b : List LaneSpec)
    (hf : f.any (fun l => decide (l.lane_type = .Biking)) = false)
    (hb : b.any (fun l => decide (l.lane_type = .Biking)) = false) :
    bicycle_buffers t f b = (f, b) := by
  have hfind : ∀ (l : List LaneSpec),
      l.any (fun x => decide (x.lane_type = .Biking)) = false →
      l.findIdx? (fun x => decide (x.lane_type = .Biking)) = none :=
    fun l => findIdx?_none_of_any_false _ l
  unfold bicycle_buffers bicycle_buffer_right_left bicycle_buffer_left_left
    bicycle_buffer_left_right
  rw [hfind f hf, hfind b hb]
  cases (Tags.get t "cycleway:right:separation:left").bind osm_separation_type <;>
    cases (Tags.get t "cycleway:left:separation:left").bind osm_separation_type <;>
      cases (Tags.get t "cycleway:left:separation:right").bind osm_separation_type <;>
        simp [hfind f hf]

/-- The bicycle pass on mirrored tags under left-hand traffic: a success
forces bicycle-free sides, and the right-hand run then succeeds with the
same sides. -/
theorem bicycle_mirror (t : Tags) (i ow : Bool) (f b f' b' : List LaneSpec)
    (w' : LaneSpecWarnings)
    (hL : bicycle (mirrorTags t) ⟨.Left, i⟩ ow f b [] = .ok (f', b', w')) :
    ∃ w2, bicycle t ⟨.Right, i⟩ ow f b [] = .ok (f', b', w2) := by
  unfold bicycle at hL ⊢
  cases hpL : bicycle_push (mirrorTags t) ⟨.Left, i⟩ ow f b [] with
  | error e => rw [hpL] at hL; exact absurd hL (by simp)
  | ok fbw =>
    obtain ⟨f1, b1, w1⟩ := fbw
    rw [hpL] at hL
    dsimp only at hL
    split at hL
    · exact absurd hL (by simp)
    · rename_i hguard
      simp only [Except.ok.injEq, Prod.mk.injEq] at hL
      obtain ⟨h1, h2, h3⟩ := hL
      have hproj := bicycle_push_mirror t i ow f b [] []
      rw [hpL] at hproj
      cases hpR : bicycle_push t ⟨.Right, i⟩ ow f b [] with
      | error e => rw [hpR] at hproj; exact absurd hproj (by simp [Except.map])
      | ok fbw2 =>
        obtain ⟨f2, b2, w2⟩ := fbw2
        rw [hpR] at hproj
        simp only [Except.map, Except.ok.injEq, Prod.mk.injEq] at hproj
        obtain ⟨hf12, hb12⟩ := hproj
        subst hf12
        subst hb12
        have hnb : (f1 ++ b1).any (fun l => decide (l.lane_type = .Biking)) = false := by
          cases hany : (f1 ++ b1).any (fun l => decide (l.lane_type = .Biking)) with
          | false => rfl
          | true => exact absurd (by simp [bicycle_guard, hany]) hguard
        rw [List.any_append, Bool.or_eq_false_iff] at hnb
        have hbufL := bicycle_buffers_no_biking (mirrorTags t) f1 b1 hnb.1 hnb.2
        have hbufR := bicycle_buffers_no_biking t f1 b1 hnb.1 hnb.2
        have hf' : f' = f1 := by rw [← h1, hbufL]
        have hb' : b' = b1 := by rw [← h2, hbufL]
        subst hf'
        subst hb'
        refine ⟨w2, ?_⟩
        dsimp only
        rw [bicycle_guard_right]
        simp [hbufR]

/-- C6 counterexample: mirror symmetry fails on the old pipeline even on a
bicycle-free input. With only `parking:lane:right=parallel`, the right-hand
run puts the parking lane on the forward (right) side, and the left-hand run
on the mirrored tags (`parking:lane:left=parallel`) puts it on the backward
side — because the parking pass maps right→forward and left→backward
regardless of the driving side — so the left-hand output is not the reverse
of the right-hand one. -/
theorem c6_counterexample :
    get_lane_specs_ltr_with_warnings [("parking:lane:right", "parallel")] ⟨.Right, false⟩ =
      some (.ok ⟨[LaneSpec.backward .Driving, LaneSpec.forward .Driving,
        LaneSpec.forward .Parking], []⟩) ∧
    get_lane_specs_ltr_with_warnings (mirrorTags [("parking:lane:right", "parallel")])
        ⟨.Left, false⟩ =
      some (.ok ⟨[LaneSpec.forward .Driving, LaneSpec.backward .Driving,
        LaneSpec.backward .Parking], []⟩) ∧
    ([LaneSpec.forward .Driving, LaneSpec.backward .Driving,
        LaneSpec.backward .Parking] : List LaneSpec) ≠
      ([LaneSpec.backward .Driving, LaneSpec.forward .Driving,
        LaneSpec.forward .Parking] : List LaneSpec).reverse :=
  ⟨by decide, by decide, by decide⟩

/-- C6 (amended): mirror symmetry of the old pipeline, under the additional
proviso that the left and right `parking:lane` tags agree on whether parking
is present (the parking pass assigns right→forward and left→backward
irrespective of the driving side, so unbalanced parking tags break the
symmetry, as `c6_counterexample` shows). If both the right-hand run on the
tags and the left-hand run on the mirrored tags succeed, the latter's lane
list is exactly the reverse of the former's. The old pipeline's `LaneSpec`
carries no separator markings, so the marking-order clause is vacuous
here. -/
theorem c6_amended (t : Tags) (i : Bool) (a b : Lanes)
    (hbal : Tags.isAny t "parking:lane:left" ["parallel", "diagonal", "perpendicular"] =
      Tags.isAny t "parking:lane:right" ["parallel", "diagonal", "perpendicular"])
    (hR : get_lane_specs_ltr_with_warnings t ⟨.Right, i⟩ = some (.ok a))
    (hL : get_lane_specs_ltr_with_warnings (mirrorTags t) ⟨.Left, i⟩ = some (.ok b)) :
    b.lanes = a.lanes.reverse := by
  unfold get_lane_specs_ltr_with_warnings at hR hL
  rw [non_motorized_mirror] at hL
  cases hnm : non_motorized t ⟨.Right, i⟩ with
  | some spec =>
    rw [hnm] at hR hL
    cases spec with
    | error e =>
      dsimp only at hR
      exact absurd hR (by simp)
    | ok ls =>
      dsimp only [Option.map, Except.map] at hR hL
      simp only [Option.some.injEq, Except.ok.injEq] at hR hL
      rw [← hR, ← hL]
  | none =>
    rw [hnm] at hR hL
    dsimp only [Option.map] at hR hL
    rw [oneway_tag_mirror, driving_lane_directions_mirror t ⟨.Right, i⟩] at hL
    cases hd : driving_lane_directions t ⟨.Right, i⟩ (oneway_tag t) with
    | none =>
      rw [hd] at hR
      dsimp only at hR
      exact absurd hR (by simp)
    | some nfb =>
      obtain ⟨nf, nb⟩ := nfb
      rw [hd] at hR hL
      dsimp only at hR hL
      rw [driving_lane_type_mirror, centre_turn_mirror] at hL
      by_cases hc : driving_lane_type t = .Construction
      · rw [if_pos hc] at hR hL
        simp only [Option.some.injEq, Except.ok.injEq] at hR hL
        rw [← hR, ← hL]
        exact assemble_ltr_mirror _ _
      · rw [if_neg hc] at hR hL
        rw [bus_mirror t ⟨.Right, i⟩] at hL
        cases hbus : bus t ⟨.Right, i⟩ (oneway_tag t)
            (if centre_turn t then
              LaneSpec.both .SharedLeftTurn ::
                List.replicate nf (LaneSpec.forward (driving_lane_type t))
             else List.replicate nf (LaneSpec.forward (driving_lane_type t)))
            (List.replicate nb (LaneSpec.backward (driving_lane_type t))) with
      | none =>
        rw [hbus] at hR
        dsimp only at hR
        exact absurd hR (by simp)
      | some fb =>
        rw [hbus] at hR hL
        dsimp only at hR hL
        cases hbic : bicycle (mirrorTags t) ⟨.Left, i⟩ (oneway_tag t) fb.1 fb.2 [] with
        | error e =>
          rw [hbic] at hL
          dsimp only at hL
          exact absurd hL (by simp)
        | ok f3b3w =>
          obtain ⟨f3, b3, w⟩ := f3b3w
          rw [hbic] at hL
          dsimp only at hL
          obtain ⟨w2, hbicR⟩ := bicycle_mirror t i (oneway_tag t) fb.1 fb.2 f3 b3 w hbic
          rw [hbicR] at hR
          dsimp only at hR
          rw [parking_mirror t ⟨.Right, i⟩ ⟨.Left, i⟩ (oneway_tag t) (oneway_tag t)
            f3 b3 hbal] at hL
          rw [walking_mirror] at hL
          simp only [Option.some.injEq, Except.ok.injEq] at hR hL
          rw [← hR, ← hL]
          exact assemble_ltr_mirror _ _

theorem c6_amended_witness :
    (⟨[LaneSpec.forward .Driving, LaneSpec.backward .Driving], []⟩ : Lanes).lanes =
      (⟨[LaneSpec.backward .Driving, LaneSpec.forward .Driving], []⟩ : Lanes).lanes.reverse :=
  c6_amended [] false ⟨[LaneSpec.backward .Driving, LaneSpec.forward .Driving], []⟩
    ⟨[LaneSpec.forward .Driving, LaneSpec.backward .Driving], []⟩
    (by decide) (by decide) (by decide)

end Osm2lanes
